import Mathlib

/-! ProjetoFInal.c: maze game control loop.

A shallow embedding of `src/ProjetoFInal.c`.

* The global variables of the program and the peripheral registers it writes
  (the two PWM channel levels and the green LED pin) form the record `State`.
* C `int` values are modelled by `Int`, `uint32_t` timestamps and `uint16_t`
  samples by `Nat`; a conversion to a narrower unsigned type is an explicit
  remainder (`to_uint16`, `to_uint8`), and the unsigned subtraction of the
  debounce test is taken modulo `2 ^ 32`.
* Calls into the display driver and `printf` are recorded, in program order, as a
  list of `Out` events returned next to the new state.
* Values read from the environment (ADC samples, the millisecond clock, pin
  levels) are parameters of the function that reads them.
* A read of `maze` outside its bounds is undefined behaviour in C; the lookup
  `maze_at` returns `none` there and `update_player_position` propagates it.
* The button interrupts preempt `main`. Beside the functions of the program, the loop of
  `main` is therefore given as a machine (`Pc`, `MainStep`, `Step`) whose steps are the
  accesses of `main` to the shared globals, with a handler free to run between any two.
-/

namespace ProjetoFInal

/-! ## Constants (lines 14-40) -/

def LED_RED : Nat := 13
def LED_GREEN : Nat := 11
def LED_BLUE : Nat := 12
def JOYSTICK_PB : Nat := 22
def BTN_A : Nat := 5
def BTN_B : Nat := 6
def WIDTH : Nat := 128
def HEIGHT : Nat := 64
def MAZE_COLS : Nat := 16
def MAZE_ROWS : Nat := 8
def CELL_SIZE : Nat := 8
def GOAL_ROW : Int := 6
def GOAL_COL : Int := 14

/-- The table `maze[MAZE_ROWS][MAZE_COLS]` (lines 44-53): 1 is a wall, 0 a free cell. -/
def maze : List (List Nat) :=
  [ [1,1,1,1,1,1,1,1,1,1,1,1,1,1,1,1],
    [1,0,0,0,1,0,0,0,0,1,0,0,0,0,0,1],
    [1,0,1,0,1,0,1,1,0,1,0,1,1,1,0,1],
    [1,0,1,0,0,0,0,1,0,0,0,1,0,1,0,1],
    [1,0,1,1,1,1,0,1,1,1,0,1,0,1,0,1],
    [1,0,0,0,0,1,0,0,0,1,0,0,0,1,0,1],
    [1,1,1,1,0,1,1,1,0,1,1,1,0,1,0,1],
    [1,1,1,1,1,1,1,1,1,1,1,1,1,1,1,1] ]

/-- The read `maze[row][col]`: `none` when an index is negative or past the end of its
dimension (an out-of-bounds read), otherwise the stored cell. -/
def maze_at (row col : Int) : Option Nat :=
  if 0 ≤ row ∧ 0 ≤ col then
    match maze.get? row.toNat with
    | none => none
    | some cells => cells.get? col.toNat
  else none

/-! ## Program state -/

/-- The global variables (lines 58-76) and the output registers the program drives. -/
structure State where
  pwm_enabled : Bool
  led_green_state : Bool
  border_style : Int
  last_press_btnA : Nat
  last_press_joy : Nat
  btnA_busy : Bool
  btnJoy_busy : Bool
  last_press_btnB : Nat
  btnB_busy : Bool
  player_col : Int
  player_row : Int
  goal_reached : Bool
  /-- level last written by `pwm_set_chan_level` for `LED_RED` -/
  level_red : Nat
  /-- level last written by `pwm_set_chan_level` for `LED_BLUE` -/
  level_blue : Nat
  /-- value last written by `gpio_put(LED_GREEN, _)` -/
  pin_led_green : Bool
  deriving DecidableEq, Repr

/-- The state after the initialisers of the globals and `setup` (lines 58-76, 142, 149-150). -/
def initial_state : State :=
  { pwm_enabled := true
    led_green_state := false
    border_style := 0
    last_press_btnA := 0
    last_press_joy := 0
    btnA_busy := false
    btnJoy_busy := false
    last_press_btnB := 0
    btnB_busy := false
    player_col := 1
    player_row := 1
    goal_reached := false
    level_red := 0
    level_blue := 0
    pin_led_green := false }

/-- The calls that leave the program: `printf` with its format string and the text of its
arguments, and the display-driver calls. -/
inductive Out where
  | printf (format : String) (args : List String)
  | ssd1306_fill (value : Bool)
  | ssd1306_fill_rect (top left width height : Nat) (value : Bool)
  | ssd1306_rect (top left width height : Nat) (value fill : Bool)
  | ssd1306_pixel (x y : Nat) (value : Bool)
  | ssd1306_draw_string (text : String) (x y : Nat)
  | ssd1306_send_data
  deriving DecidableEq, Repr

/-- Conversion of an `int` to `uint16_t`. -/
def to_uint16 (v : Int) : Nat := (v % 65536).toNat

/-- Conversion of an `int` to `uint8_t`. -/
def to_uint8 (v : Int) : Nat := (v % 256).toNat

/-! ## `update_pwm` (lines 176-205) -/

/-- The function `update_pwm(adc_x, adc_y)`. The product `delta * 4095` is an `int` product
(exact here; it stays below `2 ^ 31` for every `uint16_t` sample), the quotient is C
division (truncating), and the assignment to the `uint16_t` duty variable converts. -/
def update_pwm (s : State) (adc_x adc_y : Nat) : State :=
  if s.pwm_enabled then
    let threshold : Int := 100
    let delta_x : Int := |(adc_x : Int) - 2048|
    let delta_y : Int := |(adc_y : Int) - 2048|
    let duty_red : Nat :=
      if delta_x < threshold then 0
      else
        let d := to_uint16 (Int.tdiv (delta_x * 4095) 2048)
        if d > 4095 then 4095 else d
    let duty_blue : Nat :=
      if delta_y < threshold then 0
      else
        let d := to_uint16 (Int.tdiv (delta_y * 4095) 2048)
        if d > 4095 then 4095 else d
    { s with level_red := duty_red, level_blue := duty_blue }
  else
    { s with level_red := 0, level_blue := 0 }

/-- The value `update_pwm` assigns to a duty variable for the deviation `delta` of its axis
(lines 184-189, and again lines 192-197). -/
def update_pwm.duty (delta : Int) : Nat :=
  if delta < 100 then 0
  else
    let d := to_uint16 (Int.tdiv (delta * 4095) 2048)
    if d > 4095 then 4095 else d

/-! ## `update_player_position` (lines 208-231) -/

/-- The local `moveX` of `update_player_position` after lines 211-216. -/
def update_player_position.moveX (adc_x : Nat) : Int :=
  let move_threshold : Int := 300
  let center : Int := 2048
  if (adc_x : Int) < center - move_threshold then -1
  else if (adc_x : Int) > center + move_threshold then 1
  else 0

/-- The local `moveY` of `update_player_position` after lines 211, 217-221. -/
def update_player_position.moveY (adc_y : Nat) : Int :=
  let move_threshold : Int := 300
  let center : Int := 2048
  if (adc_y : Int) < center - move_threshold then -1
  else if (adc_y : Int) > center + move_threshold then 1
  else 0

/-- The local `new_col` of `update_player_position` (line 222). -/
def update_player_position.new_col (s : State) (adc_x : Nat) : Int :=
  s.player_col + update_player_position.moveX adc_x

/-- The local `new_row` of `update_player_position` (line 223). -/
def update_player_position.new_row (s : State) (adc_y : Nat) : Int :=
  s.player_row + update_player_position.moveY adc_y

/-- The function `update_player_position(adc_x, adc_y)`. The `&&` chain is evaluated left to
right, so `maze` is read only after the four comparisons hold; `none` is an out-of-bounds
read of `maze`. -/
def update_player_position (s : State) (adc_x adc_y : Nat) : Option State :=
  let new_col := update_player_position.new_col s adc_x
  let new_row := update_player_position.new_row s adc_y
  if new_col ≥ 0 ∧ new_col < (MAZE_COLS : Int) ∧ new_row ≥ 0 ∧ new_row < (MAZE_ROWS : Int) then
    match maze_at new_row new_col with
    | none => none
    | some cell =>
      if cell = 0 then some { s with player_col := new_col, player_row := new_row }
      else some s
  else some s

/-! ## `update_display` (lines 234-268) -/

/-- The calls made by the nested loops of lines 237-244: one `ssd1306_fill_rect` for each
cell that holds 1, rows outermost. The arguments are converted to `uint8_t`. -/
def update_display.walls : List Out :=
  (List.range MAZE_ROWS).flatMap fun row =>
    (List.range MAZE_COLS).flatMap fun col =>
      if maze_at row col = some 1 then
        [Out.ssd1306_fill_rect (to_uint8 (row * CELL_SIZE)) (to_uint8 (col * CELL_SIZE))
          CELL_SIZE CELL_SIZE true]
      else []

/-- The calls made by lines 251-264 for a given `border_style`. -/
def update_display.border (border_style : Int) : List Out :=
  if border_style = 0 then
    [Out.ssd1306_rect 0 0 WIDTH HEIGHT true false]
  else if border_style = 1 then
    (((List.range WIDTH).filter fun i => i % 4 = 0).flatMap fun i =>
        [Out.ssd1306_pixel i 0 true, Out.ssd1306_pixel i (HEIGHT - 1) true])
    ++ (((List.range HEIGHT).filter fun i => i % 4 = 0).flatMap fun i =>
        [Out.ssd1306_pixel 0 i true, Out.ssd1306_pixel (WIDTH - 1) i true])
  else []

/-- The function `update_display()`: the driver calls it makes, in order. The coordinates
handed to `ssd1306_rect` are converted to `uint8_t`, the parameter type that
`ssd1306_fill_rect` (line 325) declares for them. -/
def update_display (s : State) : List Out :=
  let player_x : Int := s.player_col * CELL_SIZE
  let player_y : Int := s.player_row * CELL_SIZE
  [Out.ssd1306_fill false]
    ++ update_display.walls
    ++ [Out.ssd1306_rect (to_uint8 player_y) (to_uint8 player_x) CELL_SIZE CELL_SIZE true true]
    ++ update_display.border s.border_style
    ++ [Out.ssd1306_send_data]

/-! ## Debounce and button actions (lines 271-322, 346-383) -/

/-- The objects the `last_press` pointer of `debounce_button` is given in this program. -/
inductive PressVar where
  | last_press_btnA
  | last_press_joy
  | last_press_btnB
  deriving DecidableEq, Repr

/-- Read through the pointer: `*last_press`. -/
def PressVar.read (p : PressVar) (s : State) : Nat :=
  match p with
  | .last_press_btnA => s.last_press_btnA
  | .last_press_joy => s.last_press_joy
  | .last_press_btnB => s.last_press_btnB

/-- Write through the pointer: `*last_press = v`. -/
def PressVar.write (p : PressVar) (s : State) (v : Nat) : State :=
  match p with
  | .last_press_btnA => { s with last_press_btnA := v }
  | .last_press_joy => { s with last_press_joy := v }
  | .last_press_btnB => { s with last_press_btnB := v }

/-- The function `debounce_button(gpio, last_press, callback)`. `now` is the value of
`to_ms_since_boot(get_absolute_time())`, `gpio_get` the pin levels at the time of the read
(`false` is level 0, pressed). The subtraction is the `uint32_t` one. -/
def debounce_button (gpio : Nat) (last_press : PressVar) (callback : State → State × List Out)
    (now : Nat) (gpio_get : Nat → Bool) (s : State) : State × List Out :=
  if (now + 2 ^ 32 - last_press.read s) % 2 ^ 32 > 200 then
    let s1 := last_press.write s now
    if gpio_get gpio = false then callback s1
    else (s1, [])
  else (s, [])

/-- The function `toggle_pwm_action()` (lines 282-289). -/
def toggle_pwm_action (s : State) : State × List Out :=
  let s1 := { s with pwm_enabled := !s.pwm_enabled }
  (s1,
    [ Out.printf "PWM %s\n" [if s1.pwm_enabled then "ATIVADO" else "DESATIVADO"],
      Out.ssd1306_fill false,
      Out.ssd1306_draw_string (if s1.pwm_enabled then "PWM ON" else "PWM OFF") 20 10,
      Out.ssd1306_send_data ])

/-- The function `toggle_joy_action()` (lines 292-298). `%` is the C remainder. -/
def toggle_joy_action (s : State) : State × List Out :=
  let s1 := { s with led_green_state := !s.led_green_state }
  let s2 := { s1 with pin_led_green := s1.led_green_state }
  let s3 := { s2 with border_style := Int.tmod (s2.border_style + 1) 3 }
  (s3,
    [ Out.printf "LED Verde %s, Border style %d\n"
        [if s3.led_green_state then "Ligado" else "Desligado", toString s3.border_style] ])

/-- The function `reset_game()` (lines 346-358). -/
def reset_game (s : State) : State × List Out :=
  let s1 := { s with player_col := 1, player_row := 1 }
  let s2 := { s1 with goal_reached := false }
  let s3 := { s2 with pwm_enabled := true }
  (s3, Out.printf "Jogo reiniciado!\n" [] :: update_display s3)

/-- The function `btn_a_callback` (lines 301-309); its two parameters are not used. -/
def btn_a_callback (now : Nat) (gpio_get : Nat → Bool) (s : State) : State × List Out :=
  if !s.btnA_busy then
    let s1 := { s with btnA_busy := true }
    let r := debounce_button BTN_A .last_press_btnA toggle_pwm_action now gpio_get s1
    ({ r.1 with btnA_busy := false }, Out.printf "BTN_A IRQ acionado\n" [] :: r.2)
  else (s, [])

/-- The function `joy_button_callback(gpio, events)` (lines 312-322). `gpio_get_entry` is the
pin levels at the read of line 313, `gpio_get` those at the later read inside
`debounce_button`. -/
def joy_button_callback (gpio : Nat) (gpio_get_entry : Nat → Bool) (now : Nat)
    (gpio_get : Nat → Bool) (s : State) : State × List Out :=
  let current_state : Bool := (gpio_get_entry gpio == false)
  if current_state && !s.btnJoy_busy then
    let s1 := { s with btnJoy_busy := true }
    let r := debounce_button JOYSTICK_PB .last_press_joy toggle_joy_action now gpio_get s1
    (r.1, Out.printf "Joystick botão IRQ acionado\n" [] :: r.2)
  else if !current_state then
    ({ s with btnJoy_busy := false }, [])
  else (s, [])

/-- The function `btn_b_callback` (lines 360-368); its two parameters are not used. -/
def btn_b_callback (now : Nat) (gpio_get : Nat → Bool) (s : State) : State × List Out :=
  if !s.btnB_busy then
    let s1 := { s with btnB_busy := true }
    let r := debounce_button BTN_B .last_press_btnB reset_game now gpio_get s1
    ({ r.1 with btnB_busy := false }, Out.printf "BTN_B IRQ acionado - Reset\n" [] :: r.2)
  else (s, [])

/-- The function `gpio_global_callback(gpio, events)` (lines 370-383). -/
def gpio_global_callback (gpio : Nat) (gpio_get_entry : Nat → Bool) (now : Nat)
    (gpio_get : Nat → Bool) (s : State) : State × List Out :=
  if gpio = JOYSTICK_PB then joy_button_callback gpio gpio_get_entry now gpio_get s
  else if gpio = BTN_A then btn_a_callback now gpio_get s
  else if gpio = BTN_B then btn_b_callback now gpio_get s
  else (s, [])

/-- What one delivery of a button interrupt reads from its environment: the pin levels at
entry of the handler (read by `joy_button_callback` only), the millisecond clock, and the
pin levels at the read inside `debounce_button`. -/
structure Edge where
  gpio_get_entry : Nat → Bool
  now : Nat
  gpio_get : Nat → Bool

/-- The interrupts of a list of edge events of pin `gpio` delivered one after the other,
each to completion: for every event its timestamp and the outputs of its handler. -/
def irq_run (gpio : Nat) (s : State) : List Edge → List (Nat × List Out)
  | [] => []
  | e :: es =>
    let r := gpio_global_callback gpio e.gpio_get_entry e.now e.gpio_get s
    (e.now, r.2) :: irq_run gpio r.1 es

/-- The `last_press` variable that the handler of pin `gpio` hands to `debounce_button`
(lines 306, 318, 365). -/
def irq_press_var (gpio : Nat) : PressVar :=
  if gpio = JOYSTICK_PB then .last_press_joy
  else if gpio = BTN_A then .last_press_btnA
  else .last_press_btnB

/-- Whether an output is the console line that one of the three button actions prints when
it runs (lines 284, 296, 354). -/
def Out.is_action : Out → Bool
  | .printf format _ =>
    format == "PWM %s\n" || format == "LED Verde %s, Border style %d\n"
      || format == "Jogo reiniciado!\n"
  | _ => false

/-- The number of button actions run in a list of outputs. -/
def action_count (out : List Out) : Nat := out.countP Out.is_action

/-! ## `check_goal` and the main loop (lines 103-117, 333-344) -/

/-- The function `check_goal(ssd, player_col, player_row)`. -/
def check_goal (s : State) (player_col player_row : Int) : State × List Out :=
  if !s.goal_reached && player_col == GOAL_COL && player_row == GOAL_ROW then
    ({ s with goal_reached := true },
      [ Out.ssd1306_fill false,
        Out.ssd1306_draw_string "PARABENS!" 20 20,
        Out.ssd1306_draw_string "LABIRINTO" 20 32,
        Out.ssd1306_draw_string "CONCLUIDO!" 20 44,
        Out.ssd1306_send_data ])
  else (s, [])

/-- One iteration of the `while (true)` loop of `main` (lines 105-115), with the two values
returned by `adc_read()`; `none` is an out-of-bounds read of `maze`. -/
def main_loop_body (s : State) (adc_x adc_y : Nat) : Option (State × List Out) :=
  if !s.goal_reached then
    let s1 := update_pwm s adc_x adc_y
    match update_player_position s1 adc_x adc_y with
    | none => none
    | some s2 =>
      let out := update_display s2
      let r := check_goal s2 s2.player_col s2.player_row
      some (r.1, out ++ r.2)
  else some (s, [])

/-! ## The main loop under interrupts (lines 103-117, 159-171)

The three button pins raise one GPIO interrupt whose handler, `gpio_global_callback`, can
preempt `main` between any two of its instructions; a handler runs to completion before
`main` or another handler of the same interrupt continues. What a handler and `main` share
are the `volatile` globals, so the points at which a handler can make a difference are the
places between two accesses of `main` to those globals. `Pc` names these places, together
with the values `main` holds in locals there. -/

/-- The guard of lines 225-227 on the locals `new_col` and `new_row`; `maze` is read only
when the four comparisons hold. -/
@[reducible] def update_player_position.accepts (new_col new_row : Int) : Prop :=
  new_col ≥ 0 ∧ new_col < (MAZE_COLS : Int) ∧ new_row ≥ 0 ∧ new_row < (MAZE_ROWS : Int) ∧
    maze_at new_row new_col = some 0

/-- Where `main` stands inside one iteration of its loop. -/
inductive Pc where
  /-- line 105, before `goal_reached` is read -/
  | loop_head
  /-- line 111, before the call `update_pwm(adc_x, adc_y)`; both samples are read -/
  | call_update_pwm (adc_x adc_y : Nat)
  /-- line 222, before `player_col` is read -/
  | load_col (adc_x adc_y : Nat)
  /-- line 223, before `player_row` is read; `new_col` is computed -/
  | load_row (adc_y : Nat) (new_col : Int)
  /-- line 228, the guard has passed, before `player_col = new_col` -/
  | store_col (new_col new_row : Int)
  /-- line 229, between the two stores, before `player_row = new_row` -/
  | store_row (new_row : Int)
  /-- line 113, before the call `update_display()` -/
  | call_update_display
  /-- line 114, before the arguments of `check_goal` are read -/
  | goal_args
  /-- line 114, the argument `player_col` is read, `player_row` not yet -/
  | goal_arg_col (player_col : Int)
  /-- line 114, the argument `player_row` is read, `player_col` not yet -/
  | goal_arg_row (player_row : Int)
  /-- line 334, both arguments are read, before `goal_reached` is read -/
  | goal_test (player_col player_row : Int)
  /-- line 335, the test has passed, before `goal_reached = true` -/
  | goal_store
  deriving DecidableEq, Repr

/-- One step of `main` from one place to the next, on the globals. `update_pwm` reads
`pwm_enabled` once and writes registers that no handler touches, and `update_display` writes
no global, so each is one step; the order in which the two arguments of `check_goal` are
read is left open, as it is in C. -/
inductive MainStep : Pc → State → Pc → State → Prop where
  | loop_skip (s : State) (h : s.goal_reached = true) :
      MainStep .loop_head s .loop_head s
  | loop_enter (s : State) (adc_x adc_y : Nat) (h : s.goal_reached = false) :
      MainStep .loop_head s (.call_update_pwm adc_x adc_y) s
  | update_pwm (s : State) (adc_x adc_y : Nat) :
      MainStep (.call_update_pwm adc_x adc_y) s (.load_col adc_x adc_y)
        (update_pwm s adc_x adc_y)
  | load_col (s : State) (adc_x adc_y : Nat) :
      MainStep (.load_col adc_x adc_y) s
        (.load_row adc_y (s.player_col + update_player_position.moveX adc_x)) s
  | guard_pass (s : State) (adc_y : Nat) (new_col : Int)
      (h : update_player_position.accepts new_col
        (s.player_row + update_player_position.moveY adc_y)) :
      MainStep (.load_row adc_y new_col) s
        (.store_col new_col (s.player_row + update_player_position.moveY adc_y)) s
  | guard_fail (s : State) (adc_y : Nat) (new_col : Int)
      (h : ¬ update_player_position.accepts new_col
        (s.player_row + update_player_position.moveY adc_y)) :
      MainStep (.load_row adc_y new_col) s .call_update_display s
  | store_col (s : State) (new_col new_row : Int) :
      MainStep (.store_col new_col new_row) s (.store_row new_row)
        { s with player_col := new_col }
  | store_row (s : State) (new_row : Int) :
      MainStep (.store_row new_row) s .call_update_display { s with player_row := new_row }
  | update_display (s : State) :
      MainStep .call_update_display s .goal_args s
  | arg_col_first (s : State) :
      MainStep .goal_args s (.goal_arg_col s.player_col) s
  | arg_row_first (s : State) :
      MainStep .goal_args s (.goal_arg_row s.player_row) s
  | arg_row_second (s : State) (player_col : Int) :
      MainStep (.goal_arg_col player_col) s (.goal_test player_col s.player_row) s
  | arg_col_second (s : State) (player_row : Int) :
      MainStep (.goal_arg_row player_row) s (.goal_test s.player_col player_row) s
  | goal_fire (s : State) (player_col player_row : Int)
      (h : s.goal_reached = false ∧ player_col = GOAL_COL ∧ player_row = GOAL_ROW) :
      MainStep (.goal_test player_col player_row) s .goal_store s
  | goal_skip (s : State) (player_col player_row : Int)
      (h : ¬ (s.goal_reached = false ∧ player_col = GOAL_COL ∧ player_row = GOAL_ROW)) :
      MainStep (.goal_test player_col player_row) s .loop_head s
  | goal_store (s : State) :
      MainStep .goal_store s .loop_head { s with goal_reached := true }

/-- One step of the program: a step of `main`, or an interrupt handled to completion while
`main` stands at `pc`, with what the handler reads from its environment. -/
inductive Step : Pc → State → Pc → State → Prop where
  | main (pc : Pc) (s : State) (pc' : Pc) (s' : State) (h : MainStep pc s pc' s') :
      Step pc s pc' s'
  | irq (pc : Pc) (s : State) (gpio : Nat) (gpio_get_entry : Nat → Bool) (now : Nat)
      (gpio_get : Nat → Bool) :
      Step pc s pc (gpio_global_callback gpio gpio_get_entry now gpio_get s).1

/-- The place of `main` and the globals after some steps from boot. -/
inductive Exec : Pc → State → Prop where
  | init : Exec .loop_head initial_state
  | step (pc : Pc) (s : State) (pc' : Pc) (s' : State) (hs : Exec pc s)
      (h : Step pc s pc' s') : Exec pc' s'

/-- The values the globals can take at some point of some execution from boot. -/
def Reachable (s : State) : Prop := ∃ pc, Exec pc s

/-- A state with feedback disabled while both PWM channels still hold a non-zero level. -/
def feedback_off_state : State :=
  { initial_state with pwm_enabled := false, level_red := 4095, level_blue := 1000 }

/-! ## `ssd1306_fill_rect` (lines 325-331) -/

/-- The inner loop of `ssd1306_fill_rect` (line 327) from the value `x` of its `uint8_t`
counter on: the `ssd1306_pixel` calls it makes. The increment wraps at 256, the bound
`left + width` is an `int` sum; `none` when `fuel` iterations do not end the loop. -/
def ssd1306_fill_rect.columns (left width y : Nat) (value : Bool) :
    Nat → Nat → Option (List Out)
  | 0, _ => none
  | fuel + 1, x =>
    if x < left + width then
      match ssd1306_fill_rect.columns left width y value fuel ((x + 1) % 256) with
      | none => none
      | some rest => some (Out.ssd1306_pixel x y value :: rest)
    else some []

/-- The outer loop of `ssd1306_fill_rect` (line 326) from the value `y` of its `uint8_t`
counter on; every inner loop starts at `x = left`. -/
def ssd1306_fill_rect.rows (top left width height : Nat) (value : Bool) :
    Nat → Nat → Option (List Out)
  | 0, _ => none
  | fuel + 1, y =>
    if y < top + height then
      match ssd1306_fill_rect.columns left width y value 257 left with
      | none => none
      | some line =>
        match ssd1306_fill_rect.rows top left width height value fuel ((y + 1) % 256) with
        | none => none
        | some rest => some (line ++ rest)
    else some []

/-- The function `ssd1306_fill_rect(ssd, top, left, width, height, value)`: the
`ssd1306_pixel` calls it makes, in order. A `uint8_t` counter takes 256 values, so a loop
that has not ended after 256 iterations never ends; with 257 iterations of fuel `none`
means that the call does not return. -/
def ssd1306_fill_rect (top left width height : Nat) (value : Bool) : Option (List Out) :=
  ssd1306_fill_rect.rows top left width height value 257 top

/-! ## Runs of the main loop and of one interrupt line -/

/-- Main-loop iterations run one after the other, one for each pair `(adc_x, adc_y)` of
samples: the state after the last one (`none` after an out-of-bounds read of `maze`). -/
def main_loop_run (s : State) : List (Nat × Nat) → Option State
  | [] => some s
  | (adc_x, adc_y) :: rest =>
    match main_loop_body s adc_x adc_y with
    | none => none
    | some r => main_loop_run r.1 rest

/-- Samples that steer the player from the start cell to the goal cell, one cell per
main-loop iteration: 4095 on X is a step right, 4095 on Y a step down, 0 on Y a step up. -/
def solution_path : List (Nat × Nat) :=
  [ (4095, 2048), (4095, 2048), (2048, 4095), (2048, 4095), (4095, 2048), (4095, 2048),
    (2048, 0), (2048, 0), (4095, 2048), (4095, 2048), (4095, 2048), (2048, 4095),
    (2048, 4095), (4095, 2048), (4095, 2048), (2048, 0), (2048, 0), (4095, 2048),
    (4095, 2048), (4095, 2048), (4095, 2048), (2048, 4095), (2048, 4095), (2048, 4095),
    (2048, 4095), (2048, 4095) ]

/-- The state after the interrupts of `irq_run gpio s es` have all been handled. -/
def irq_state (gpio : Nat) (s : State) : List Edge → State
  | [] => s
  | e :: es =>
    irq_state gpio (gpio_global_callback gpio e.gpio_get_entry e.now e.gpio_get s).1 es


/-! ## Auxiliary facts about the maze table and the move -/

theorem maze_at_in_bounds (row col : Int) (hr0 : 0 ≤ row) (hr : row < 8) (hc0 : 0 ≤ col)
    (hc : col < 16) : maze_at row col = some 0 ∨ maze_at row col = some 1 := by
  lift row to ℕ using hr0
  lift col to ℕ using hc0
  have hr' : row < 8 := by exact_mod_cast hr
  have hc' : col < 16 := by exact_mod_cast hc
  interval_cases row <;> interval_cases col <;> decide

theorem maze_at_some_bounds (row col : Int) (v : Nat) (h : maze_at row col = some v) :
    0 ≤ row ∧ row < 8 ∧ 0 ≤ col ∧ col < 16 := by
  unfold maze_at at h
  split at h
  · rename_i hnn
    obtain ⟨hr0, hc0⟩ := hnn
    lift row to ℕ using hr0
    lift col to ℕ using hc0
    simp only [Int.toNat_ofNat, List.get?_eq_getElem?] at h
    have hr : row < 8 := by
      by_contra hge
      have hn : maze[row]? = none := List.getElem?_eq_none (by simp [maze]; omega)
      simp [hn] at h
    have hc : col < 16 := by
      interval_cases row <;> simp only [maze] at h <;>
        (obtain ⟨hlt, -⟩ := List.getElem?_eq_some.mp h; simpa using hlt)
    omega
  · simp at h

theorem update_player_position_eq (s : State) (adc_x adc_y : Nat) :
    update_player_position s adc_x adc_y =
      some (if maze_at (update_player_position.new_row s adc_y)
                (update_player_position.new_col s adc_x) = some 0 then
              { s with player_col := update_player_position.new_col s adc_x,
                       player_row := update_player_position.new_row s adc_y }
            else s) := by
  unfold update_player_position
  simp only []
  split
  · rename_i hb
    obtain ⟨h1, h2, h3, h4⟩ := hb
    rcases maze_at_in_bounds _ _ h3 (by simpa [MAZE_ROWS] using h4) h1
      (by simpa [MAZE_COLS] using h2) with h | h
    · simp [h]
    · simp [h]
  · rename_i hb
    have : maze_at (update_player_position.new_row s adc_y)
        (update_player_position.new_col s adc_x) ≠ some 0 := by
      intro h
      have := maze_at_some_bounds _ _ _ h
      apply hb
      simp only [MAZE_ROWS, MAZE_COLS]
      omega
    simp [this]

/-! ## C1: move resolution -/

theorem update_pwm_position (s : State) (adc_x adc_y : Nat) :
    (update_pwm s adc_x adc_y).player_row = s.player_row ∧
      (update_pwm s adc_x adc_y).player_col = s.player_col := by
  unfold update_pwm
  split <;> simp

theorem check_goal_position (s : State) (c r : Int) :
    (check_goal s c r).1.player_row = s.player_row ∧
      (check_goal s c r).1.player_col = s.player_col := by
  unfold check_goal
  split <;> simp

/-- A main-loop iteration always completes: it is the identity once the goal is reached,
and otherwise `update_pwm`, `update_player_position` (which returns a state), `update_display`
and `check_goal` in sequence. -/
theorem main_loop_body_some (s : State) (adc_x adc_y : Nat) :
    ∃ s2, update_player_position (update_pwm s adc_x adc_y) adc_x adc_y = some s2 ∧
      main_loop_body s adc_x adc_y =
        some (if s.goal_reached = true then (s, [])
          else ((check_goal s2 s2.player_col s2.player_row).1,
            update_display s2 ++ (check_goal s2 s2.player_col s2.player_row).2)) := by
  refine ⟨_, update_player_position_eq _ _ _, ?_⟩
  unfold main_loop_body
  simp only [update_player_position_eq]
  cases s.goal_reached <;> simp

/-! ## C3: movement mapping -/

/-- C3. The intent computed by `update_player_position` is, per axis, -1 for a sample below
2048-300 = 1748, +1 for a sample above 2048+300 = 2348 and 0 otherwise (so 0 on 1748..2348);
2048-299 and 2048+299 give 0, 2048-301 gives -1, 2048+301 gives +1; the candidate cell is
the current cell displaced by that intent; and each of the nine pairs of intents is produced
by some pair of samples in [0, 4095]. -/
theorem movement_mapping :
    (∀ adc : Nat,
      (adc < 1748 → update_player_position.moveX adc = -1 ∧
        update_player_position.moveY adc = -1) ∧
      (2348 < adc → update_player_position.moveX adc = 1 ∧
        update_player_position.moveY adc = 1) ∧
      (1748 ≤ adc → adc ≤ 2348 → update_player_position.moveX adc = 0 ∧
        update_player_position.moveY adc = 0)) ∧
    (update_player_position.moveX (2048 - 299) = 0 ∧
      update_player_position.moveX (2048 + 299) = 0 ∧
      update_player_position.moveX (2048 - 301) = -1 ∧
      update_player_position.moveX (2048 + 301) = 1 ∧
      update_player_position.moveY (2048 - 299) = 0 ∧
      update_player_position.moveY (2048 + 299) = 0 ∧
      update_player_position.moveY (2048 - 301) = -1 ∧
      update_player_position.moveY (2048 + 301) = 1) ∧
    (∀ (s : State) (adc_x adc_y : Nat),
      update_player_position.new_col s adc_x =
          s.player_col + update_player_position.moveX adc_x ∧
        update_player_position.new_row s adc_y =
          s.player_row + update_player_position.moveY adc_y) ∧
    (∀ dx dy : Int, (dx = -1 ∨ dx = 0 ∨ dx = 1) → (dy = -1 ∨ dy = 0 ∨ dy = 1) →
      ∃ adc_x adc_y : Nat, adc_x ≤ 4095 ∧ adc_y ≤ 4095 ∧
        update_player_position.moveX adc_x = dx ∧
        update_player_position.moveY adc_y = dy) := by
  refine ⟨?_, by decide, fun _ _ _ => ⟨rfl, rfl⟩, ?_⟩
  · intro adc
    unfold update_player_position.moveX update_player_position.moveY
    simp only []
    refine ⟨fun h => ⟨?_, ?_⟩, fun h => ⟨?_, ?_⟩, fun h1 h2 => ⟨?_, ?_⟩⟩ <;>
      split_ifs <;> omega
  · intro dx dy hx hy
    have key : ∀ d : Int, (d = -1 ∨ d = 0 ∨ d = 1) →
        ∃ adc : Nat, adc ≤ 4095 ∧ update_player_position.moveX adc = d ∧
          update_player_position.moveY adc = d := by
      intro d hd
      rcases hd with rfl | rfl | rfl
      · exact ⟨0, by decide, by decide, by decide⟩
      · exact ⟨2048, by decide, by decide, by decide⟩
      · exact ⟨4095, by decide, by decide, by decide⟩
    obtain ⟨ax, hax, hmx, -⟩ := key dx hx
    obtain ⟨ay, hay, -, hmy⟩ := key dy hy
    exact ⟨ax, ay, hax, hay, hmx, hmy⟩

/-! ## C4, C5, C6: feedback intensity -/

theorem update_pwm_levels (s : State) (adc_x adc_y : Nat) (hen : s.pwm_enabled = true) :
    (update_pwm s adc_x adc_y).level_red = update_pwm.duty |(adc_x : Int) - 2048| ∧
      (update_pwm s adc_x adc_y).level_blue = update_pwm.duty |(adc_y : Int) - 2048| := by
  unfold update_pwm update_pwm.duty
  simp [hen]

theorem duty_in_range (delta : Int) (h1 : 100 ≤ delta) (h2 : delta ≤ 2048) :
    (update_pwm.duty delta : Int) = delta * 4095 / 2048 ∧ delta * 4095 / 2048 ≤ 4095 := by
  have hq : Int.tdiv (delta * 4095) 2048 = delta * 4095 / 2048 :=
    Int.tdiv_eq_ediv (by omega) (by omega)
  have hle : delta * 4095 / 2048 ≤ 4095 := by omega
  have hge : 0 ≤ delta * 4095 / 2048 := by omega
  refine ⟨?_, hle⟩
  unfold update_pwm.duty to_uint16
  rw [hq]
  have hmod : delta * 4095 / 2048 % 65536 = delta * 4095 / 2048 := by omega
  rw [hmod]
  have h3 : ¬ delta < 100 := by omega
  have h4 : ¬ (delta * 4095 / 2048).toNat > 4095 := by omega
  simp only [h3, h4, if_false]
  omega

theorem sample_delta (adc : Nat) (h : adc ≤ 4095) : |(adc : Int) - 2048| ≤ 2048 := by
  rw [abs_le]
  constructor <;> omega


/-- C4. With feedback enabled, for a sample in [0, 4095] whose deviation from 2048 is at
least 100, the level `update_pwm` writes for that axis is
`clamp(floor(|s - 2048| * 4095 / 2048), 0, 4095)`: the `int` product stays below `2 ^ 31`,
the quotient below `2 ^ 16` (the conversion to `uint16_t` loses nothing), and the level is
at most 4095. The red level is a function of the X sample alone and the blue level of the Y
sample alone. -/
theorem update_pwm_intensity_formula (s : State) (hen : s.pwm_enabled = true) :
    (∀ adc_x adc_y : Nat, adc_x ≤ 4095 → 100 ≤ |(adc_x : Int) - 2048| →
      ((update_pwm s adc_x adc_y).level_red : Int) =
          max 0 (min (|(adc_x : Int) - 2048| * 4095 / 2048) 4095) ∧
        |(adc_x : Int) - 2048| * 4095 < 2 ^ 31 ∧
        |(adc_x : Int) - 2048| * 4095 / 2048 < 2 ^ 16 ∧
        (update_pwm s adc_x adc_y).level_red ≤ 4095) ∧
    (∀ adc_x adc_y : Nat, adc_y ≤ 4095 → 100 ≤ |(adc_y : Int) - 2048| →
      ((update_pwm s adc_x adc_y).level_blue : Int) =
          max 0 (min (|(adc_y : Int) - 2048| * 4095 / 2048) 4095) ∧
        |(adc_y : Int) - 2048| * 4095 < 2 ^ 31 ∧
        |(adc_y : Int) - 2048| * 4095 / 2048 < 2 ^ 16 ∧
        (update_pwm s adc_x adc_y).level_blue ≤ 4095) ∧
    (∀ adc_x adc_y adc_y' : Nat,
      (update_pwm s adc_x adc_y).level_red = (update_pwm s adc_x adc_y').level_red) ∧
    (∀ adc_x adc_x' adc_y : Nat,
      (update_pwm s adc_x adc_y).level_blue = (update_pwm s adc_x' adc_y).level_blue) := by
  have key : ∀ adc : Nat, adc ≤ 4095 → 100 ≤ |(adc : Int) - 2048| →
      (update_pwm.duty |(adc : Int) - 2048| : Int) =
          max 0 (min (|(adc : Int) - 2048| * 4095 / 2048) 4095) ∧
        |(adc : Int) - 2048| * 4095 < 2 ^ 31 ∧
        |(adc : Int) - 2048| * 4095 / 2048 < 2 ^ 16 ∧
        update_pwm.duty |(adc : Int) - 2048| ≤ 4095 := by
    intro adc h1 h2
    have h3 := sample_delta adc h1
    obtain ⟨h4, h5⟩ := duty_in_range _ h2 h3
    generalize |(adc : Int) - 2048| = delta at *
    have h6 : 0 ≤ delta * 4095 / 2048 := by omega
    refine ⟨?_, by omega, by omega, by omega⟩
    rw [h4, min_eq_left h5, max_eq_right h6]
  refine ⟨fun x y hx hd => ?_, fun x y hy hd => ?_, fun x y y' => ?_, fun x x' y => ?_⟩
  · rw [(update_pwm_levels s x y hen).1]; exact key x hx hd
  · rw [(update_pwm_levels s x y hen).2]; exact key y hy hd
  · rw [(update_pwm_levels s x y hen).1, (update_pwm_levels s x y' hen).1]
  · rw [(update_pwm_levels s x y hen).2, (update_pwm_levels s x' y hen).2]

/-- C4 at concrete inputs: the initial state (feedback enabled) with samples 4095 and 0,
whose levels are 4093 and 4095. -/
theorem update_pwm_intensity_formula_witness :
    initial_state.pwm_enabled = true ∧
      ((update_pwm initial_state 4095 0).level_red : Int) =
        max 0 (min (|((4095 : Nat) : Int) - 2048| * 4095 / 2048) 4095) ∧
      ((update_pwm initial_state 4095 0).level_blue : Int) =
        max 0 (min (|((0 : Nat) : Int) - 2048| * 4095 / 2048) 4095) ∧
      (update_pwm initial_state 4095 0).level_red = 4093 ∧
      (update_pwm initial_state 4095 0).level_blue = 4095 :=
  ⟨rfl,
    ((update_pwm_intensity_formula initial_state rfl).1 4095 0 (by decide) (by decide)).1,
    ((update_pwm_intensity_formula initial_state rfl).2.1 4095 0 (by decide) (by decide)).1,
    by decide, by decide⟩

/-- C5 (as amended). With feedback enabled, for every sample with `|s - 2048| < 100`, that
is `1949 <= s <= 2147`, the level `update_pwm` writes for that axis is 0. -/
theorem update_pwm_deadzone (s : State) (hen : s.pwm_enabled = true) (adc_x adc_y : Nat) :
    (1949 ≤ adc_x → adc_x ≤ 2147 → (update_pwm s adc_x adc_y).level_red = 0) ∧
    (1949 ≤ adc_y → adc_y ≤ 2147 → (update_pwm s adc_x adc_y).level_blue = 0) := by
  have key : ∀ adc : Nat, 1949 ≤ adc → adc ≤ 2147 →
      update_pwm.duty |(adc : Int) - 2048| = 0 := by
    intro adc h1 h2
    have : |(adc : Int) - 2048| < 100 := by
      rw [abs_lt]
      constructor <;> omega
    unfold update_pwm.duty
    simp [this]
  refine ⟨fun h1 h2 => ?_, fun h1 h2 => ?_⟩
  · rw [(update_pwm_levels s adc_x adc_y hen).1]; exact key adc_x h1 h2
  · rw [(update_pwm_levels s adc_x adc_y hen).2]; exact key adc_y h1 h2

/-- C5 at concrete inputs: the initial state with samples 1949 and 2147. -/
theorem update_pwm_deadzone_witness :
    initial_state.pwm_enabled = true ∧
      (update_pwm initial_state 1949 2147).level_red = 0 ∧
      (update_pwm initial_state 1949 2147).level_blue = 0 :=
  ⟨rfl, (update_pwm_deadzone initial_state rfl 1949 2147).1 (by decide) (by decide),
    (update_pwm_deadzone initial_state rfl 1949 2147).2 (by decide) (by decide)⟩

/-- C5 (the claim as stated fails). With feedback enabled, the samples 2148 = 2048+100 and
1948 = 2048-100 lie within 2048±100, yet the level written for them is 199, not 0. -/
theorem boundary_samples_level_nonzero :
    initial_state.pwm_enabled = true ∧
      (1948 ≤ 2148 ∧ 2148 ≤ 2148) ∧ (update_pwm initial_state 2148 1948).level_red = 199 ∧
      (1948 ≤ 1948 ∧ 1948 ≤ 2148) ∧ (update_pwm initial_state 2148 1948).level_blue = 199 ∧
      (update_pwm initial_state 2148 1948).level_red ≠ 0 ∧
      (update_pwm initial_state 2148 1948).level_blue ≠ 0 := by
  decide

/-- C6. With feedback enabled, for samples `a < b` with `2048+100 <= a` and `b <= 4095`, the
red level written for X sample `a` is at most the red level written for X sample `b`, and
likewise the blue level for Y samples, whatever the other axis reads. -/
theorem update_pwm_monotone (s t : State) (hs : s.pwm_enabled = true)
    (ht : t.pwm_enabled = true) (a b : Nat) (hab : a < b) (ha : 2048 + 100 ≤ a)
    (hb : b ≤ 4095) (o o' : Nat) :
    (update_pwm s a o).level_red ≤ (update_pwm t b o').level_red ∧
      (update_pwm s o a).level_blue ≤ (update_pwm t o' b).level_blue := by
  have key : update_pwm.duty |(a : Int) - 2048| ≤ update_pwm.duty |(b : Int) - 2048| := by
    have ha' : |(a : Int) - 2048| = (a : Int) - 2048 := abs_of_nonneg (by omega)
    have hb' : |(b : Int) - 2048| = (b : Int) - 2048 := abs_of_nonneg (by omega)
    have h1 := (duty_in_range ((a : Int) - 2048) (by omega) (by omega)).1
    have h2 := (duty_in_range ((b : Int) - 2048) (by omega) (by omega)).1
    rw [ha', hb']
    omega
  rw [(update_pwm_levels s a o hs).1, (update_pwm_levels t b o' ht).1,
    (update_pwm_levels s o a hs).2, (update_pwm_levels t o' b ht).2]
  exact ⟨key, key⟩

/-- C6 at concrete inputs: samples 3000 < 4000 in the initial state. -/
theorem update_pwm_monotone_witness :
    initial_state.pwm_enabled = true ∧ 3000 < 4000 ∧ 2048 + 100 ≤ 3000 ∧ 4000 ≤ 4095 ∧
      (update_pwm initial_state 3000 2048).level_red ≤
        (update_pwm initial_state 4000 2048).level_red ∧
      (update_pwm initial_state 2048 3000).level_blue ≤
        (update_pwm initial_state 2048 4000).level_blue :=
  ⟨rfl, by decide, by decide, by decide,
    update_pwm_monotone initial_state initial_state rfl rfl 3000 4000 (by decide) (by decide)
      (by decide) 2048 2048⟩

/-! ## C7, C8, C9: debounce -/

theorem update_display_no_action (s : State) : action_count (update_display s) = 0 := by
  have hw : List.countP Out.is_action update_display.walls = 0 := by decide
  have hb : List.countP Out.is_action (update_display.border s.border_style) = 0 := by
    unfold update_display.border
    split_ifs
    · rfl
    · decide
    · rfl
  unfold action_count update_display
  simp only [List.countP_append, hw, hb]
  rfl

theorem callback_frame (cb : State → State × List Out)
    (hcb : cb = toggle_pwm_action ∨ cb = toggle_joy_action ∨ cb = reset_game)
    (p : PressVar) (u : State) :
    p.read (cb u).1 = p.read u ∧ action_count (cb u).2 = 1 := by
  rcases hcb with rfl | rfl | rfl
  · cases p <;> exact ⟨rfl, by simp [action_count, toggle_pwm_action, Out.is_action]⟩
  · cases p <;> exact ⟨rfl, by simp [action_count, toggle_joy_action, Out.is_action]⟩
  · have h : action_count (reset_game u).2 = 1 := by
      have := update_display_no_action (reset_game u).1
      unfold action_count at *
      unfold reset_game
      simp only [List.countP_cons]
      unfold reset_game at this
      simp only [] at this
      rw [this]
      rfl
    cases p <;> exact ⟨rfl, h⟩

theorem press_var_read_write (p : PressVar) (s : State) (v : Nat) :
    p.read (p.write s v) = v := by
  cases p <;> rfl

theorem debounce_button_cases (cb : State → State × List Out)
    (hcb : cb = toggle_pwm_action ∨ cb = toggle_joy_action ∨ cb = reset_game)
    (gpio : Nat) (p : PressVar) (now : Nat) (gpio_get : Nat → Bool) (s : State) :
    (((now + 2 ^ 32 - p.read s) % 2 ^ 32 > 200 ∧ gpio_get gpio = false) →
      debounce_button gpio p cb now gpio_get s = cb (p.write s now) ∧
        p.read (debounce_button gpio p cb now gpio_get s).1 = now ∧
        action_count (debounce_button gpio p cb now gpio_get s).2 = 1) ∧
    (((now + 2 ^ 32 - p.read s) % 2 ^ 32 > 200 ∧ gpio_get gpio = true) →
      debounce_button gpio p cb now gpio_get s = (p.write s now, []) ∧
        p.read (debounce_button gpio p cb now gpio_get s).1 = now) ∧
    ((now + 2 ^ 32 - p.read s) % 2 ^ 32 ≤ 200 →
      debounce_button gpio p cb now gpio_get s = (s, [])) := by
  refine ⟨?_, ?_, ?_⟩
  · rintro ⟨h1, h2⟩
    have h : debounce_button gpio p cb now gpio_get s = cb (p.write s now) := by
      unfold debounce_button
      rw [if_pos h1]
      simp [h2]
    rw [h, (callback_frame cb hcb p _).1, press_var_read_write]
    exact ⟨rfl, rfl, (callback_frame cb hcb p _).2⟩
  · rintro ⟨h1, h2⟩
    have h : debounce_button gpio p cb now gpio_get s = (p.write s now, []) := by
      unfold debounce_button
      rw [if_pos h1]
      simp [h2]
    rw [h]
    exact ⟨rfl, press_var_read_write p s now⟩
  · intro h1
    unfold debounce_button
    have : ¬ (now + 2 ^ 32 - p.read s) % 2 ^ 32 > 200 := by omega
    simp only [this, if_false]

/-- C7 (as amended). For each of the three callbacks of the program, `debounce_button`
stores `now` in `*last_press` exactly when more than 200 ms (as `uint32_t` difference) have
passed since the stored timestamp, whether or not the press is then confirmed. When in
addition the pin reads 0 it runs the callback once on the state with the new timestamp; when
the pin reads 1 it emits nothing but keeps the new timestamp; when 200 ms or less have passed
it emits nothing and leaves the whole state unchanged. -/
theorem debounce_button_bookkeeping (cb : State → State × List Out)
    (hcb : cb = toggle_pwm_action ∨ cb = toggle_joy_action ∨ cb = reset_game)
    (gpio : Nat) (p : PressVar) (now : Nat) (gpio_get : Nat → Bool) (s : State) :
    (((now + 2 ^ 32 - p.read s) % 2 ^ 32 > 200 ∧ gpio_get gpio = false) →
      debounce_button gpio p cb now gpio_get s = cb (p.write s now) ∧
        p.read (debounce_button gpio p cb now gpio_get s).1 = now ∧
        action_count (debounce_button gpio p cb now gpio_get s).2 = 1) ∧
    (((now + 2 ^ 32 - p.read s) % 2 ^ 32 > 200 ∧ gpio_get gpio = true) →
      debounce_button gpio p cb now gpio_get s = (p.write s now, []) ∧
        p.read (debounce_button gpio p cb now gpio_get s).1 = now) ∧
    ((now + 2 ^ 32 - p.read s) % 2 ^ 32 ≤ 200 →
      debounce_button gpio p cb now gpio_get s = (s, [])) :=
  debounce_button_cases cb hcb gpio p now gpio_get s

/-- C7 at concrete inputs: button A in the initial state, at 1000 ms with the pin low, at
1000 ms with the pin high, and at 150 ms. -/
theorem debounce_button_bookkeeping_witness :
    debounce_button BTN_A .last_press_btnA toggle_pwm_action 1000 (fun _ => false)
        initial_state = toggle_pwm_action { initial_state with last_press_btnA := 1000 } ∧
      debounce_button BTN_A .last_press_btnA toggle_pwm_action 1000 (fun _ => true)
        initial_state = ({ initial_state with last_press_btnA := 1000 }, []) ∧
      debounce_button BTN_A .last_press_btnA toggle_pwm_action 150 (fun _ => false)
        initial_state = (initial_state, []) :=
  ⟨((debounce_button_bookkeeping toggle_pwm_action (Or.inl rfl) BTN_A .last_press_btnA 1000
      (fun _ => false) initial_state).1 ⟨by decide, rfl⟩).1,
    ((debounce_button_bookkeeping toggle_pwm_action (Or.inl rfl) BTN_A .last_press_btnA 1000
      (fun _ => true) initial_state).2.1 ⟨by decide, rfl⟩).1,
    (debounce_button_bookkeeping toggle_pwm_action (Or.inl rfl) BTN_A .last_press_btnA 150
      (fun _ => false) initial_state).2.2 (by decide)⟩

/-- C7 (the claim as stated fails). In the initial state (timestamp 0) an edge of button A at
1000 ms with the pin reading high emits no action, yet the timestamp becomes 1000; a press at
1100 ms with the pin low is then rejected, although the same press is confirmed when the
rejected edge has not occurred. -/
theorem debounce_button_rejected_edge_moves_timestamp :
    (debounce_button BTN_A .last_press_btnA toggle_pwm_action 1000 (fun _ => true)
        initial_state).2 = [] ∧
      initial_state.last_press_btnA = 0 ∧
      (debounce_button BTN_A .last_press_btnA toggle_pwm_action 1000 (fun _ => true)
        initial_state).1.last_press_btnA = 1000 ∧
      (debounce_button BTN_A .last_press_btnA toggle_pwm_action 1100 (fun _ => false)
        (debounce_button BTN_A .last_press_btnA toggle_pwm_action 1000 (fun _ => true)
          initial_state).1).2 = [] ∧
      action_count (debounce_button BTN_A .last_press_btnA toggle_pwm_action 1100
        (fun _ => false) initial_state).2 = 1 := by
  decide

theorem debounce_button_facts (cb : State → State × List Out)
    (hcb : cb = toggle_pwm_action ∨ cb = toggle_joy_action ∨ cb = reset_game)
    (gpio : Nat) (p : PressVar) (now : Nat) (gpio_get : Nat → Bool) (s : State) :
    (p.read (debounce_button gpio p cb now gpio_get s).1 = p.read s ∨
      p.read (debounce_button gpio p cb now gpio_get s).1 = now) ∧
    action_count (debounce_button gpio p cb now gpio_get s).2 ≤ 1 ∧
    (0 < action_count (debounce_button gpio p cb now gpio_get s).2 →
      (now + 2 ^ 32 - p.read s) % 2 ^ 32 > 200 ∧
        p.read (debounce_button gpio p cb now gpio_get s).1 = now) := by
  obtain ⟨h1, h2, h3⟩ := debounce_button_cases cb hcb gpio p now gpio_get s
  by_cases he : (now + 2 ^ 32 - p.read s) % 2 ^ 32 > 200
  · cases hg : gpio_get gpio
    · obtain ⟨-, hr, hc⟩ := h1 ⟨he, hg⟩
      exact ⟨Or.inr hr, by omega, fun _ => ⟨he, hr⟩⟩
    · obtain ⟨hd, hr⟩ := h2 ⟨he, hg⟩
      refine ⟨Or.inr hr, ?_, fun _ => ⟨he, hr⟩⟩
      rw [hd]
      simp [action_count]
  · rw [h3 (by omega)]
    simp [action_count]

theorem irq_step_facts (gpio : Nat) (gpio_get_entry : Nat → Bool) (now : Nat)
    (gpio_get : Nat → Bool) (s : State) :
    ((irq_press_var gpio).read (gpio_global_callback gpio gpio_get_entry now gpio_get s).1 =
        (irq_press_var gpio).read s ∨
      (irq_press_var gpio).read (gpio_global_callback gpio gpio_get_entry now gpio_get s).1 =
        now) ∧
    action_count (gpio_global_callback gpio gpio_get_entry now gpio_get s).2 ≤ 1 ∧
    (0 < action_count (gpio_global_callback gpio gpio_get_entry now gpio_get s).2 →
      (now + 2 ^ 32 - (irq_press_var gpio).read s) % 2 ^ 32 > 200 ∧
        (irq_press_var gpio).read
          (gpio_global_callback gpio gpio_get_entry now gpio_get s).1 = now) := by
  unfold gpio_global_callback
  split_ifs with hj ha hb
  · -- joystick button
    have hp : irq_press_var gpio = .last_press_joy := by simp [irq_press_var, hj]
    rw [hp]
    unfold joy_button_callback
    simp only []
    split_ifs
    · have h := debounce_button_facts toggle_joy_action (Or.inr (Or.inl rfl)) JOYSTICK_PB
        .last_press_joy now gpio_get { s with btnJoy_busy := true }
      simpa [action_count, Out.is_action, PressVar.read] using h
    · simp [action_count, PressVar.read]
    · simp [action_count]
  · -- button A
    have hp : irq_press_var gpio = .last_press_btnA := by
      rw [ha]; decide
    rw [hp]
    unfold btn_a_callback
    split_ifs
    · have h := debounce_button_facts toggle_pwm_action (Or.inl rfl) BTN_A
        .last_press_btnA now gpio_get { s with btnA_busy := true }
      simpa [action_count, Out.is_action, PressVar.read] using h
    · simp [action_count]
  · -- button B
    have hp : irq_press_var gpio = .last_press_btnB := by
      rw [hb]; decide
    rw [hp]
    unfold btn_b_callback
    split_ifs
    · have h := debounce_button_facts reset_game (Or.inr (Or.inr rfl)) BTN_B
        .last_press_btnB now gpio_get { s with btnB_busy := true }
      simpa [action_count, Out.is_action, PressVar.read] using h
    · simp [action_count]
  · simp [action_count]


theorem irq_run_after (gpio : Nat) (es : List Edge) :
    ∀ (s : State) (L : Nat), L ≤ (irq_press_var gpio).read s →
      (∀ e ∈ es, (irq_press_var gpio).read s ≤ e.now ∧ e.now < 2 ^ 32) →
      es.Pairwise (fun a b => a.now ≤ b.now) →
      ∀ b ∈ irq_run gpio s es, 0 < action_count b.2 → L + 200 < b.1 := by
  induction es with
  | nil => intro s L _ _ _ b hb; simp [irq_run] at hb
  | cons e es ih =>
    intro s L hL hes hsorted b hb hemit
    obtain ⟨hread, -, hfire⟩ := irq_step_facts gpio e.gpio_get_entry e.now e.gpio_get s
    obtain ⟨he1, he2⟩ := hes e (List.mem_cons_self _ _)
    rw [List.pairwise_cons] at hsorted
    simp only [irq_run, List.mem_cons] at hb
    rcases hb with rfl | hb
    · obtain ⟨hgt, -⟩ := hfire hemit
      simp only [] at hgt ⊢
      omega
    · refine ih _ L ?_ ?_ hsorted.2 b hb hemit
      · rcases hread with h | h <;> omega
      · intro e' he'
        have h1 := hsorted.1 e' he'
        have h2 := hes e' (List.mem_cons_of_mem _ he')
        rcases hread with h | h
        · rw [h]; exact h2
        · rw [h]; exact ⟨h1, h2.2⟩

theorem irq_run_pairwise (gpio : Nat) (es : List Edge) :
    ∀ (s : State), es.Pairwise (fun a b => a.now ≤ b.now) → (∀ e ∈ es, e.now < 2 ^ 32) →
      (irq_run gpio s es).Pairwise
        (fun a b => 0 < action_count a.2 → 0 < action_count b.2 → a.1 + 200 < b.1) := by
  induction es with
  | nil => intro s _ _; simp [irq_run]
  | cons e es ih =>
    intro s hsorted hwrap
    rw [List.pairwise_cons] at hsorted
    simp only [irq_run, List.pairwise_cons]
    refine ⟨fun b hb hemit hemitb => ?_, ih _ hsorted.2 fun e' he' =>
      hwrap e' (List.mem_cons_of_mem _ he')⟩
    obtain ⟨-, -, hfire⟩ := irq_step_facts gpio e.gpio_get_entry e.now e.gpio_get s
    obtain ⟨-, hnow⟩ := hfire hemit
    refine irq_run_after gpio es _ e.now (le_of_eq hnow.symm) ?_ hsorted.2 b hb hemitb
    intro e' he'
    rw [hnow]
    exact ⟨hsorted.1 e' he', hwrap e' (List.mem_cons_of_mem _ he')⟩

theorem irq_run_now (gpio : Nat) (es : List Edge) :
    ∀ (s : State), ∀ b ∈ irq_run gpio s es, ∃ e ∈ es, e.now = b.1 := by
  induction es with
  | nil => intro s b hb; simp [irq_run] at hb
  | cons e es ih =>
    intro s b hb
    simp only [irq_run, List.mem_cons] at hb
    rcases hb with rfl | hb
    · exact ⟨e, List.mem_cons_self _ _, rfl⟩
    · obtain ⟨e', he', h⟩ := ih _ b hb
      exact ⟨e', List.mem_cons_of_mem _ he', h⟩

theorem irq_run_count_le (gpio : Nat) (es : List Edge) :
    ∀ (s : State), ∀ b ∈ irq_run gpio s es, action_count b.2 ≤ 1 := by
  induction es with
  | nil => intro s b hb; simp [irq_run] at hb
  | cons e es ih =>
    intro s b hb
    simp only [irq_run, List.mem_cons] at hb
    rcases hb with rfl | hb
    · exact (irq_step_facts gpio e.gpio_get_entry e.now e.gpio_get s).2.1
    · exact ih _ b hb

theorem sum_le_one_of_exclusive (l : List (Nat × List Out))
    (hle : ∀ b ∈ l, action_count b.2 ≤ 1)
    (hex : l.Pairwise (fun a b => 0 < action_count a.2 → 0 < action_count b.2 → False)) :
    (l.map fun b => action_count b.2).sum ≤ 1 := by
  induction l with
  | nil => simp
  | cons a l ih =>
    rw [List.pairwise_cons] at hex
    have h1 := hle a (List.mem_cons_self _ _)
    have h2 := ih (fun b hb => hle b (List.mem_cons_of_mem _ hb)) hex.2
    simp only [List.map_cons, List.sum_cons]
    by_cases h0 : action_count a.2 = 0
    · omega
    · have hz : (l.map fun b => action_count b.2).sum = 0 := by
        rw [List.sum_eq_zero_iff]
        intro x hx
        obtain ⟨b, hb, rfl⟩ := List.mem_map.mp hx
        by_contra hne
        exact hex.1 b hb (by omega) (by omega)
      omega

/-- C8. For every pin and every list of edge events of that pin with non-decreasing
timestamps below `2 ^ 32`, arbitrary pin levels and an arbitrary starting state, two events
whose handlers both run the button action are at least 200 ms apart (in fact more than
200 ms); hence when all the events lie within one 200 ms window (no two of them more than
200 ms apart), at most one action runs in total. An event runs the action when the outputs
of its handler contain the console line of the action. -/
theorem debounce_collapses_bursts (gpio : Nat) (s : State) (es : List Edge)
    (hsorted : es.Pairwise (fun a b => a.now ≤ b.now)) (hwrap : ∀ e ∈ es, e.now < 2 ^ 32) :
    (irq_run gpio s es).Pairwise
        (fun a b => 0 < action_count a.2 → 0 < action_count b.2 →
          a.1 + 200 ≤ b.1 ∧ a.1 + 200 < b.1) ∧
      ((∀ a ∈ es, ∀ b ∈ es, b.now ≤ a.now + 200) →
        ((irq_run gpio s es).map fun b => action_count b.2).sum ≤ 1) := by
  have hp := irq_run_pairwise gpio es s hsorted hwrap
  refine ⟨hp.imp fun h ha hb => ⟨by have := h ha hb; omega, h ha hb⟩, fun hwin => ?_⟩
  refine sum_le_one_of_exclusive _ (irq_run_count_le gpio es s) ?_
  refine List.Pairwise.imp_of_mem ?_ hp
  intro a b ha hb h hea heb
  obtain ⟨ea, hea', hae⟩ := irq_run_now gpio es s a ha
  obtain ⟨eb, heb', hbe⟩ := irq_run_now gpio es s b hb
  have h1 := h hea heb
  have h2 := hwin ea hea' eb heb'
  omega

/-- C8 at concrete inputs: button A in the initial state with presses (pin low) at 300, 350,
400 and 900 ms: the handlers at 300 and 900 run the action, those at 350 and 400 do not. -/
theorem debounce_collapses_bursts_witness :
    ((irq_run BTN_A initial_state
        [⟨fun _ => false, 300, fun _ => false⟩, ⟨fun _ => false, 350, fun _ => false⟩,
          ⟨fun _ => false, 400, fun _ => false⟩, ⟨fun _ => false, 900, fun _ => false⟩]).map
        fun b => (b.1, action_count b.2)) = [(300, 1), (350, 0), (400, 0), (900, 1)] ∧
      (irq_run BTN_A initial_state
        [⟨fun _ => false, 300, fun _ => false⟩, ⟨fun _ => false, 350, fun _ => false⟩,
          ⟨fun _ => false, 400, fun _ => false⟩, ⟨fun _ => false, 900, fun _ => false⟩]).Pairwise
        (fun a b => 0 < action_count a.2 → 0 < action_count b.2 →
          a.1 + 200 ≤ b.1 ∧ a.1 + 200 < b.1) :=
  ⟨by decide,
    (debounce_collapses_bursts BTN_A initial_state
      [⟨fun _ => false, 300, fun _ => false⟩, ⟨fun _ => false, 350, fun _ => false⟩,
        ⟨fun _ => false, 400, fun _ => false⟩, ⟨fun _ => false, 900, fun _ => false⟩]
      (by simp) (by simp)).1⟩

theorem btn_a_confirms (gpio_get_entry : Nat → Bool) (now : Nat) (gpio_get : Nat → Bool)
    (s : State) (hbusy : s.btnA_busy = false)
    (he : (now + 2 ^ 32 - s.last_press_btnA) % 2 ^ 32 > 200) (hpin : gpio_get BTN_A = false) :
    action_count (gpio_global_callback BTN_A gpio_get_entry now gpio_get s).2 = 1 ∧
      (gpio_global_callback BTN_A gpio_get_entry now gpio_get s).1.last_press_btnA = now ∧
      (gpio_global_callback BTN_A gpio_get_entry now gpio_get s).1.btnA_busy = false := by
  have h := (debounce_button_cases toggle_pwm_action (Or.inl rfl) BTN_A
    .last_press_btnA now gpio_get { s with btnA_busy := true }).1 ⟨he, hpin⟩
  have hg : gpio_global_callback BTN_A gpio_get_entry now gpio_get s =
      btn_a_callback now gpio_get s := by
    simp [gpio_global_callback, BTN_A, JOYSTICK_PB]
  rw [hg]
  unfold btn_a_callback
  obtain ⟨h1, h2, h3⟩ := h
  refine ⟨?_, ?_, ?_⟩
  · simpa [hbusy, action_count, Out.is_action] using h3
  · simpa [hbusy, PressVar.read] using h2
  · simp [hbusy]

theorem btn_b_confirms (gpio_get_entry : Nat → Bool) (now : Nat) (gpio_get : Nat → Bool)
    (s : State) (hbusy : s.btnB_busy = false)
    (he : (now + 2 ^ 32 - s.last_press_btnB) % 2 ^ 32 > 200) (hpin : gpio_get BTN_B = false) :
    action_count (gpio_global_callback BTN_B gpio_get_entry now gpio_get s).2 = 1 ∧
      (gpio_global_callback BTN_B gpio_get_entry now gpio_get s).1.last_press_btnB = now ∧
      (gpio_global_callback BTN_B gpio_get_entry now gpio_get s).1.btnB_busy = false := by
  have h := (debounce_button_cases reset_game (Or.inr (Or.inr rfl)) BTN_B
    .last_press_btnB now gpio_get { s with btnB_busy := true }).1 ⟨he, hpin⟩
  have hg : gpio_global_callback BTN_B gpio_get_entry now gpio_get s =
      btn_b_callback now gpio_get s := by
    simp [gpio_global_callback, BTN_A, BTN_B, JOYSTICK_PB]
  rw [hg]
  unfold btn_b_callback
  obtain ⟨h1, h2, h3⟩ := h
  refine ⟨?_, ?_, ?_⟩
  · simpa [hbusy, action_count, Out.is_action] using h3
  · simpa [hbusy, PressVar.read] using h2
  · simp [hbusy]

theorem irq_run_length (gpio : Nat) (es : List Edge) :
    ∀ s : State, (irq_run gpio s es).length = es.length := by
  induction es with
  | nil => intro s; rfl
  | cons e es ih => intro s; simp [irq_run, ih]

theorem btn_a_spaced (es : List Edge) :
    ∀ (s : State), s.btnA_busy = false →
      List.Chain (fun a b => a + 200 < b) s.last_press_btnA (es.map Edge.now) →
      (∀ e ∈ es, e.now < 2 ^ 32) → (∀ e ∈ es, e.gpio_get BTN_A = false) →
      ∀ b ∈ irq_run BTN_A s es, action_count b.2 = 1 := by
  induction es with
  | nil => intro s _ _ _ _ b hb; simp [irq_run] at hb
  | cons e es ih =>
    intro s hbusy hchain hwrap hpin b hb
    simp only [List.map_cons, List.chain_cons] at hchain
    have hw := hwrap e (List.mem_cons_self _ _)
    obtain ⟨h1, h2, h3⟩ := btn_a_confirms e.gpio_get_entry e.now e.gpio_get s hbusy
      (by omega) (hpin e (List.mem_cons_self _ _))
    simp only [irq_run, List.mem_cons] at hb
    rcases hb with rfl | hb
    · exact h1
    · exact ih _ h3 (by rw [h2]; exact hchain.2)
        (fun e' he' => hwrap e' (List.mem_cons_of_mem _ he'))
        (fun e' he' => hpin e' (List.mem_cons_of_mem _ he')) b hb

theorem btn_b_spaced (es : List Edge) :
    ∀ (s : State), s.btnB_busy = false →
      List.Chain (fun a b => a + 200 < b) s.last_press_btnB (es.map Edge.now) →
      (∀ e ∈ es, e.now < 2 ^ 32) → (∀ e ∈ es, e.gpio_get BTN_B = false) →
      ∀ b ∈ irq_run BTN_B s es, action_count b.2 = 1 := by
  induction es with
  | nil => intro s _ _ _ _ b hb; simp [irq_run] at hb
  | cons e es ih =>
    intro s hbusy hchain hwrap hpin b hb
    simp only [List.map_cons, List.chain_cons] at hchain
    have hw := hwrap e (List.mem_cons_self _ _)
    obtain ⟨h1, h2, h3⟩ := btn_b_confirms e.gpio_get_entry e.now e.gpio_get s hbusy
      (by omega) (hpin e (List.mem_cons_self _ _))
    simp only [irq_run, List.mem_cons] at hb
    rcases hb with rfl | hb
    · exact h1
    · exact ih _ h3 (by rw [h2]; exact hchain.2)
        (fun e' he' => hwrap e' (List.mem_cons_of_mem _ he'))
        (fun e' he' => hpin e' (List.mem_cons_of_mem _ he')) b hb

/-- C9 (as amended). For button A, and likewise button B, starting from a state in which
that button has timestamp 0 and its busy flag clear (as at boot), for every list of edge
events whose timestamps (below `2 ^ 32`) are each more than 200 ms after the previous one,
the first more than 200 ms after boot, and at each of which the pin reads low, the handler
of every event runs the button action exactly once. -/
theorem spaced_presses_each_confirmed (s : State) (es : List Edge)
    (hspaced : List.Chain (fun a b => a + 200 < b) 0 (es.map Edge.now))
    (hwrap : ∀ e ∈ es, e.now < 2 ^ 32) :
    (s.last_press_btnA = 0 → s.btnA_busy = false → (∀ e ∈ es, e.gpio_get BTN_A = false) →
      (irq_run BTN_A s es).length = es.length ∧
        ∀ b ∈ irq_run BTN_A s es, action_count b.2 = 1) ∧
    (s.last_press_btnB = 0 → s.btnB_busy = false → (∀ e ∈ es, e.gpio_get BTN_B = false) →
      (irq_run BTN_B s es).length = es.length ∧
        ∀ b ∈ irq_run BTN_B s es, action_count b.2 = 1) := by
  constructor
  · intro h0 hbusy hpin
    exact ⟨irq_run_length _ _ _, btn_a_spaced es s hbusy (by rw [h0]; exact hspaced) hwrap hpin⟩
  · intro h0 hbusy hpin
    exact ⟨irq_run_length _ _ _, btn_b_spaced es s hbusy (by rw [h0]; exact hspaced) hwrap hpin⟩

/-- C9 at concrete inputs: presses at 201, 402 and 1000 ms from the initial state, on
button A and on button B. -/
theorem spaced_presses_each_confirmed_witness :
    (∀ b ∈ irq_run BTN_A initial_state
        [⟨fun _ => false, 201, fun _ => false⟩, ⟨fun _ => false, 402, fun _ => false⟩,
          ⟨fun _ => false, 1000, fun _ => false⟩], action_count b.2 = 1) ∧
      (∀ b ∈ irq_run BTN_B initial_state
        [⟨fun _ => false, 201, fun _ => false⟩, ⟨fun _ => false, 402, fun _ => false⟩,
          ⟨fun _ => false, 1000, fun _ => false⟩], action_count b.2 = 1) :=
  ⟨((spaced_presses_each_confirmed initial_state
      [⟨fun _ => false, 201, fun _ => false⟩, ⟨fun _ => false, 402, fun _ => false⟩,
        ⟨fun _ => false, 1000, fun _ => false⟩] (by simp) (by simp)).1 rfl rfl (by simp)).2,
    ((spaced_presses_each_confirmed initial_state
      [⟨fun _ => false, 201, fun _ => false⟩, ⟨fun _ => false, 402, fun _ => false⟩,
        ⟨fun _ => false, 1000, fun _ => false⟩] (by simp) (by simp)).2 rfl rfl (by simp)).2⟩

/-- C9 (the claim as stated fails). A press of button A, and of button B, exactly 200 ms
after boot with the pin low runs no action; and of two presses at 1000 ms and 1200 ms,
exactly 200 ms apart, only the first runs the action. -/
theorem press_at_exactly_200ms_rejected :
    ((irq_run BTN_A initial_state [⟨fun _ => false, 200, fun _ => false⟩]).map
        fun b => action_count b.2) = [0] ∧
      ((irq_run BTN_B initial_state [⟨fun _ => false, 200, fun _ => false⟩]).map
        fun b => action_count b.2) = [0] ∧
      ((irq_run BTN_A initial_state
        [⟨fun _ => false, 1000, fun _ => false⟩, ⟨fun _ => false, 1200, fun _ => false⟩]).map
        fun b => action_count b.2) = [1, 0] ∧
      ((irq_run BTN_B initial_state
        [⟨fun _ => false, 1000, fun _ => false⟩, ⟨fun _ => false, 1200, fun _ => false⟩]).map
        fun b => action_count b.2) = [1, 0] := by
  decide

/-! ## C10: reset -/

/-- C10. For every state, `reset_game` yields `goal_reached = false`, the player on
(col 1, row 1) and `pwm_enabled = true`, changes no other variable (in particular not
`border_style` and `led_green_state`), and a second reset returns the same state (and
draws the same screen) as the first. -/
theorem reset_game_idempotent (s : State) :
    (reset_game s).1.goal_reached = false ∧
      (reset_game s).1.player_col = 1 ∧ (reset_game s).1.player_row = 1 ∧
      (reset_game s).1.pwm_enabled = true ∧
      (reset_game s).1.border_style = s.border_style ∧
      (reset_game s).1.led_green_state = s.led_green_state ∧
      (reset_game s).1 =
        { s with player_col := 1, player_row := 1, goal_reached := false,
                 pwm_enabled := true } ∧
      (reset_game (reset_game s).1).1 = (reset_game s).1 ∧
      reset_game (reset_game s).1 = reset_game s :=
  ⟨rfl, rfl, rfl, rfl, rfl, rfl, rfl, rfl, rfl⟩


/-! ## C11: the completed phase -/

/-- C11. In every state with `goal_reached` set, a main-loop iteration with any samples
returns the state unchanged (so the player position and both PWM levels stay as they are)
and makes no driver call. `check_goal` sets `goal_reached` and draws the completion screen
when `goal_reached` was false and the position passed to it is (col 14, row 6), and does
nothing in every other case; hence a second `check_goal` on the goal cell right after the
first does nothing. -/
theorem completed_freezes_and_goal_fires_once :
    (∀ (s : State) (adc_x adc_y : Nat), s.goal_reached = true →
      main_loop_body s adc_x adc_y = some (s, [])) ∧
    (∀ (s : State) (player_col player_row : Int),
      s.goal_reached = false → player_col = 14 → player_row = 6 →
      check_goal s player_col player_row =
        ({ s with goal_reached := true },
          [ Out.ssd1306_fill false,
            Out.ssd1306_draw_string "PARABENS!" 20 20,
            Out.ssd1306_draw_string "LABIRINTO" 20 32,
            Out.ssd1306_draw_string "CONCLUIDO!" 20 44,
            Out.ssd1306_send_data ])) ∧
    (∀ (s : State) (player_col player_row : Int),
      (s.goal_reached = true ∨ player_col ≠ 14 ∨ player_row ≠ 6) →
      check_goal s player_col player_row = (s, [])) ∧
    (∀ s : State,
      check_goal (check_goal s 14 6).1 14 6 = ((check_goal s 14 6).1, [])) := by
  refine ⟨?_, ?_, ?_, ?_⟩
  · intro s x y h
    unfold main_loop_body
    simp [h]
  · intro s c r h hc hr
    subst hc hr
    simp [check_goal, h, GOAL_COL, GOAL_ROW]
  · intro s c r h
    unfold check_goal
    rcases h with h | h | h
    · simp [h]
    · simp [GOAL_COL, h]
    · simp [GOAL_ROW, h]
  · intro s
    cases hg : s.goal_reached <;> simp [check_goal, hg, GOAL_COL, GOAL_ROW]

/-! ## C12: the joystick-button action -/

theorem gpio_global_callback_border (gpio : Nat) (gpio_get_entry : Nat → Bool) (now : Nat)
    (gpio_get : Nat → Bool) (s : State) :
    (gpio_global_callback gpio gpio_get_entry now gpio_get s).1.border_style =
        s.border_style ∨
      (gpio_global_callback gpio gpio_get_entry now gpio_get s).1.border_style =
        Int.tmod (s.border_style + 1) 3 := by
  unfold gpio_global_callback joy_button_callback btn_a_callback btn_b_callback debounce_button
    toggle_pwm_action toggle_joy_action reset_game
  simp only []
  split_ifs <;> simp [PressVar.write]

theorem main_loop_body_border (s : State) (adc_x adc_y : Nat) (r : State × List Out)
    (h : main_loop_body s adc_x adc_y = some r) : r.1.border_style = s.border_style := by
  obtain ⟨s2, h2, hm⟩ := main_loop_body_some s adc_x adc_y
  rw [hm] at h
  rw [update_player_position_eq] at h2
  simp only [Option.some.injEq] at h h2
  subst h
  split
  · rfl
  · subst h2
    unfold check_goal update_pwm
    split_ifs <;> rfl

theorem main_step_border (pc : Pc) (s : State) (pc' : Pc) (s' : State)
    (h : MainStep pc s pc' s') : s'.border_style = s.border_style := by
  cases h <;> first
    | rfl
    | (unfold update_pwm; split <;> rfl)

theorem exec_border_style (pc : Pc) (s : State) (h : Exec pc s) :
    s.border_style = 0 ∨ s.border_style = 1 ∨ s.border_style = 2 := by
  induction h with
  | init => left; rfl
  | step pc s pc' s' _ hst ih =>
    cases hst with
    | main =>
      rename_i hm
      rw [main_step_border _ _ _ _ hm]
      exact ih
    | irq gpio gpio_get_entry now gpio_get =>
      rcases gpio_global_callback_border gpio gpio_get_entry now gpio_get s with h | h
      · rw [h]; exact ih
      · rw [h]
        rcases ih with h0 | h0 | h0 <;> rw [h0] <;> decide

theorem reachable_border_style (s : State) (h : Reachable s) :
    s.border_style = 0 ∨ s.border_style = 1 ∨ s.border_style = 2 := by
  obtain ⟨pc, hpc⟩ := h
  exact exec_border_style pc s hpc

/-- C12. `toggle_joy_action` flips `led_green_state`, writes the new value to the green LED
pin and sets `border_style` to the C remainder `(border_style + 1) % 3`, which for a
non-negative `border_style` is `(border_style + 1) mod 3` (0 to 1, 1 to 2, 2 to 0); it changes
nothing else (player position, `goal_reached`, `pwm_enabled` included). In every reachable
state `border_style` is 0, 1 or 2; from such a state three actions in a row restore
`border_style`, and from any state two actions in a row restore `led_green_state`. -/
theorem toggle_joy_action_cycles :
    (∀ s : State,
      (toggle_joy_action s).1.led_green_state = !s.led_green_state ∧
      (toggle_joy_action s).1.pin_led_green = !s.led_green_state ∧
      (toggle_joy_action s).1.border_style = Int.tmod (s.border_style + 1) 3 ∧
      (0 ≤ s.border_style → (toggle_joy_action s).1.border_style = (s.border_style + 1) % 3) ∧
      (s.border_style = 0 → (toggle_joy_action s).1.border_style = 1) ∧
      (s.border_style = 1 → (toggle_joy_action s).1.border_style = 2) ∧
      (s.border_style = 2 → (toggle_joy_action s).1.border_style = 0) ∧
      (toggle_joy_action s).1.player_col = s.player_col ∧
      (toggle_joy_action s).1.player_row = s.player_row ∧
      (toggle_joy_action s).1.goal_reached = s.goal_reached ∧
      (toggle_joy_action s).1.pwm_enabled = s.pwm_enabled ∧
      (toggle_joy_action s).1 =
        { s with led_green_state := !s.led_green_state, pin_led_green := !s.led_green_state,
                 border_style := Int.tmod (s.border_style + 1) 3 }) ∧
    (∀ s : State, Reachable s →
      s.border_style = 0 ∨ s.border_style = 1 ∨ s.border_style = 2) ∧
    (∀ s : State, (s.border_style = 0 ∨ s.border_style = 1 ∨ s.border_style = 2) →
      (toggle_joy_action (toggle_joy_action (toggle_joy_action s).1).1).1.border_style =
        s.border_style) ∧
    (∀ s : State,
      (toggle_joy_action (toggle_joy_action s).1).1.led_green_state = s.led_green_state) := by
  refine ⟨fun s => ⟨rfl, rfl, rfl, fun h => ?_, fun h => ?_, fun h => ?_, fun h => ?_, rfl, rfl,
    rfl, rfl, rfl⟩, reachable_border_style, fun s h => ?_, fun s => ?_⟩
  · show Int.tmod (s.border_style + 1) 3 = _
    exact Int.tmod_eq_emod (by omega) (by omega)
  · show Int.tmod (s.border_style + 1) 3 = _
    rw [h]; decide
  · show Int.tmod (s.border_style + 1) 3 = _
    rw [h]; decide
  · show Int.tmod (s.border_style + 1) 3 = _
    rw [h]; decide
  · show Int.tmod (Int.tmod (Int.tmod (s.border_style + 1) 3 + 1) 3 + 1) 3 = _
    rcases h with h | h | h <;> rw [h] <;> decide
  · show (!(!s.led_green_state)) = _
    simp

/-! ## C13, C14: the end-to-end scenario and the silenced feedback -/

/-- What one main-loop iteration does to the position and to `goal_reached`. -/
theorem main_loop_body_result (s : State) (adc_x adc_y : Nat) :
    ∃ r, main_loop_body s adc_x adc_y = some r ∧
      (s.goal_reached = true → r = (s, [])) ∧
      (s.goal_reached = false →
        (maze_at (s.player_row + update_player_position.moveY adc_y)
            (s.player_col + update_player_position.moveX adc_x) = some 0 →
          r.1.player_row = s.player_row + update_player_position.moveY adc_y ∧
            r.1.player_col = s.player_col + update_player_position.moveX adc_x) ∧
        (maze_at (s.player_row + update_player_position.moveY adc_y)
            (s.player_col + update_player_position.moveX adc_x) ≠ some 0 →
          r.1.player_row = s.player_row ∧ r.1.player_col = s.player_col) ∧
        (r.1.goal_reached = true ↔ r.1.player_col = 14 ∧ r.1.player_row = 6)) := by
  obtain ⟨s2, h2, hm⟩ := main_loop_body_some s adc_x adc_y
  refine ⟨_, hm, fun h => by simp [h], fun h => ?_⟩
  rw [update_player_position_eq] at h2
  simp only [Option.some.injEq] at h2
  have hrow : update_player_position.new_row (update_pwm s adc_x adc_y) adc_y =
      s.player_row + update_player_position.moveY adc_y := by
    unfold update_player_position.new_row
    rw [(update_pwm_position s adc_x adc_y).1]
  have hcol : update_player_position.new_col (update_pwm s adc_x adc_y) adc_x =
      s.player_col + update_player_position.moveX adc_x := by
    unfold update_player_position.new_col
    rw [(update_pwm_position s adc_x adc_y).2]
  have hgoal : (update_pwm s adc_x adc_y).goal_reached = false := by
    unfold update_pwm
    split <;> exact h
  rw [hrow, hcol] at h2
  simp only [h, Bool.false_eq_true, if_false, (check_goal_position _ _ _).1,
    (check_goal_position _ _ _).2]
  refine ⟨fun hfree => ?_, fun hwall => ?_, ?_⟩
  · rw [if_pos hfree] at h2
    subst h2
    exact ⟨rfl, rfl⟩
  · rw [if_neg hwall] at h2
    subst h2
    exact update_pwm_position s adc_x adc_y
  · have hs2 : s2.goal_reached = false := by
      rw [← h2]
      split <;> exact hgoal
    unfold check_goal
    by_cases hc : s2.player_col = 14 <;> by_cases hr : s2.player_row = 6 <;>
      simp [hs2, hc, hr, GOAL_COL, GOAL_ROW]

theorem main_loop_run_centered (n : Nat) :
    ∀ s : State, ∃ t, main_loop_run s (List.replicate n (2048, 2048)) = some t ∧
      t.player_col = s.player_col ∧ t.player_row = s.player_row := by
  induction n with
  | zero => intro s; exact ⟨s, rfl, rfl, rfl⟩
  | succ n ih =>
    intro s
    obtain ⟨r, hr, hdone, hplay⟩ := main_loop_body_result s 2048 2048
    have hpos : r.1.player_col = s.player_col ∧ r.1.player_row = s.player_row := by
      cases hg : s.goal_reached
      · obtain ⟨hfree, hwall, -⟩ := hplay hg
        have hx : update_player_position.moveX 2048 = 0 := by decide
        have hy : update_player_position.moveY 2048 = 0 := by decide
        rw [hx, hy] at hfree hwall
        by_cases hf : maze_at (s.player_row + 0) (s.player_col + 0) = some 0
        · have := hfree hf
          omega
        · have := hwall hf
          omega
      · rw [hdone hg]
        exact ⟨rfl, rfl⟩
    obtain ⟨t, ht, h1, h2⟩ := ih r.1
    refine ⟨t, ?_, by rw [h1, hpos.1], by rw [h2, hpos.2]⟩
    simp only [List.replicate_succ, main_loop_run, hr]
    exact ht

/-- C13. On the built-in maze, from the initial state (player on col 1, row 1) any number of
main-loop iterations fed x = 2048, y = 2048 complete and leave the player on (col 1, row 1);
one iteration fed x = 2500, y = 2048 from (col 1, row 1) while the game is not completed
moves the player to (col 2, row 1), the cell `maze[1][2]` being free. -/
theorem end_to_end_scenario :
    (initial_state.player_col = 1 ∧ initial_state.player_row = 1 ∧
      initial_state.goal_reached = false) ∧
    (∀ n : Nat, ∃ t, main_loop_run initial_state (List.replicate n (2048, 2048)) = some t ∧
      t.player_col = 1 ∧ t.player_row = 1) ∧
    maze_at 1 2 = some 0 ∧
    (∀ s : State, s.player_col = 1 → s.player_row = 1 → s.goal_reached = false →
      ∃ r, main_loop_body s 2500 2048 = some r ∧ r.1.player_col = 2 ∧ r.1.player_row = 1) ∧
    (∃ r, main_loop_body initial_state 2500 2048 = some r ∧
      r.1.player_col = 2 ∧ r.1.player_row = 1) := by
  have key : ∀ s : State, s.player_col = 1 → s.player_row = 1 → s.goal_reached = false →
      ∃ r, main_loop_body s 2500 2048 = some r ∧ r.1.player_col = 2 ∧ r.1.player_row = 1 := by
    intro s hc hr hg
    obtain ⟨r, hbody, -, hplay⟩ := main_loop_body_result s 2500 2048
    obtain ⟨hfree, -, -⟩ := hplay hg
    have hx : update_player_position.moveX 2500 = 1 := by decide
    have hy : update_player_position.moveY 2048 = 0 := by decide
    rw [hx, hy, hc, hr] at hfree
    obtain ⟨h1, h2⟩ := hfree (by decide)
    exact ⟨r, hbody, by rw [h2]; rfl, by rw [h1]; rfl⟩
  refine ⟨⟨rfl, rfl, rfl⟩, fun n => ?_, by decide, key, key initial_state rfl rfl rfl⟩
  obtain ⟨t, ht, h1, h2⟩ := main_loop_run_centered n initial_state
  exact ⟨t, ht, h1, h2⟩

/-- C14. When `pwm_enabled` is false, `update_pwm` writes level 0 to both the red and the
blue channel for every pair of samples, whatever the levels were before, and changes nothing
else. -/
theorem update_pwm_disabled_silences (s : State) (hoff : s.pwm_enabled = false)
    (adc_x adc_y : Nat) :
    (update_pwm s adc_x adc_y).level_red = 0 ∧ (update_pwm s adc_x adc_y).level_blue = 0 ∧
      update_pwm s adc_x adc_y = { s with level_red := 0, level_blue := 0 } := by
  unfold update_pwm
  simp [hoff]

/-- C14 at a concrete input: feedback disabled with the previous levels 4095 and 1000 and
the samples 4095 and 0. -/
theorem update_pwm_disabled_silences_witness :
    feedback_off_state.level_red = 4095 ∧ feedback_off_state.level_blue = 1000 ∧
      (update_pwm feedback_off_state 4095 0).level_red = 0 ∧
      (update_pwm feedback_off_state 4095 0).level_blue = 0 :=
  ⟨rfl, rfl, (update_pwm_disabled_silences feedback_off_state rfl 4095 0).1,
    (update_pwm_disabled_silences feedback_off_state rfl 4095 0).2.1⟩

/-! ## C15: what `update_display` draws -/

theorem fill_rect_columns_eq (left width y : Nat) (value : Bool) (hw : left + width ≤ 255) :
    ∀ fuel x : Nat, x ≤ left + width → left + width - x < fuel →
      ssd1306_fill_rect.columns left width y value fuel x =
        some ((List.range' x (left + width - x)).map fun i => Out.ssd1306_pixel i y value) := by
  intro fuel
  induction fuel with
  | zero => intro x _ h; omega
  | succ fuel ih =>
    intro x hx hf
    unfold ssd1306_fill_rect.columns
    by_cases hlt : x < left + width
    · have hmod : (x + 1) % 256 = x + 1 := Nat.mod_eq_of_lt (by omega)
      rw [if_pos hlt, hmod, ih (x + 1) (by omega) (by omega)]
      have hn : left + width - x = (left + width - (x + 1)) + 1 := by omega
      rw [hn, List.range'_succ]
      rfl
    · have hz : left + width - x = 0 := by omega
      rw [if_neg hlt, hz]
      rfl

theorem fill_rect_rows_eq (top left width height : Nat) (value : Bool)
    (hw : left + width ≤ 255) (hh : top + height ≤ 255) :
    ∀ fuel y : Nat, y ≤ top + height → top + height - y < fuel →
      ssd1306_fill_rect.rows top left width height value fuel y =
        some ((List.range' y (top + height - y)).flatMap fun j =>
          (List.range' left width).map fun i => Out.ssd1306_pixel i j value) := by
  intro fuel
  induction fuel with
  | zero => intro y _ h; omega
  | succ fuel ih =>
    intro y hy hf
    unfold ssd1306_fill_rect.rows
    by_cases hlt : y < top + height
    · have hmod : (y + 1) % 256 = y + 1 := Nat.mod_eq_of_lt (by omega)
      have hcols := fill_rect_columns_eq left width y value hw 257 left (by omega) (by omega)
      have hwd : left + width - left = width := by omega
      rw [hwd] at hcols
      rw [if_pos hlt, hmod, hcols, ih (y + 1) (by omega) (by omega)]
      have hn : top + height - y = (top + height - (y + 1)) + 1 := by omega
      rw [hn, List.range'_succ]
      rfl
    · have hz : top + height - y = 0 := by omega
      rw [if_neg hlt, hz]
      rfl

/-- A call of `ssd1306_fill_rect` whose rectangle ends at or before coordinate 255 in both
directions returns, having written the pixels of the rectangle row by row. -/
theorem ssd1306_fill_rect_eq (top left width height : Nat) (value : Bool)
    (hw : left + width ≤ 255) (hh : top + height ≤ 255) :
    ssd1306_fill_rect top left width height value =
      some ((List.range' top height).flatMap fun j =>
        (List.range' left width).map fun i => Out.ssd1306_pixel i j value) := by
  unfold ssd1306_fill_rect
  have h := fill_rect_rows_eq top left width height value hw hh 257 top (by omega) (by omega)
  have hht : top + height - top = height := by omega
  rw [hht] at h
  exact h

set_option maxRecDepth 100000 in
theorem walls_count_in_grid :
    ∀ row : Nat, row < 8 → ∀ col : Nat, col < 16 →
      update_display.walls.count (Out.ssd1306_fill_rect (row * 8) (col * 8) 8 8 true) =
        if maze_at row col = some 1 then 1 else 0 := by
  decide

set_option maxRecDepth 100000 in
theorem walls_members :
    ∀ o ∈ update_display.walls, ∃ row : Nat, row < 8 ∧ ∃ col : Nat, col < 16 ∧
      maze_at row col = some 1 ∧ o = Out.ssd1306_fill_rect (row * 8) (col * 8) 8 8 true := by
  decide

theorem walls_count (row col : Nat) :
    update_display.walls.count (Out.ssd1306_fill_rect (row * 8) (col * 8) 8 8 true) =
      if maze_at row col = some 1 then 1 else 0 := by
  by_cases hin : row < 8 ∧ col < 16
  · exact walls_count_in_grid row hin.1 col hin.2
  · have hne : maze_at row col ≠ some 1 := by
      intro h
      have := maze_at_some_bounds _ _ _ h
      omega
    rw [if_neg hne, List.count_eq_zero]
    intro hmem
    obtain ⟨r, hr, c, hc, -, heq⟩ := walls_members _ hmem
    simp only [Out.ssd1306_fill_rect.injEq] at heq
    omega

theorem border_dashed_mem (o : Out) :
    o ∈ update_display.border 1 ↔
      (∃ i : Nat, i < 128 ∧ i % 4 = 0 ∧
        (o = Out.ssd1306_pixel i 0 true ∨ o = Out.ssd1306_pixel i 63 true)) ∨
      (∃ i : Nat, i < 64 ∧ i % 4 = 0 ∧
        (o = Out.ssd1306_pixel 0 i true ∨ o = Out.ssd1306_pixel 127 i true)) := by
  unfold update_display.border
  simp [WIDTH, HEIGHT, List.mem_flatMap, and_assoc]

/-- C15. For every state, `update_display` makes, in this order: one `ssd1306_fill(false)`;
the wall rectangles; one filled 8x8 `ssd1306_rect` for the player; the border calls; one
`ssd1306_send_data`. The wall rectangles are exactly one filled 8x8 `ssd1306_fill_rect` with
top `row*8` (pixel y) and left `col*8` (pixel x) for each cell with `maze[row][col] == 1`,
and none for any other cell; each of these calls returns and writes 64 pixels, all of them
inside the 128x64 display. For a player on the grid the player rectangle has top
`player_row*8` and left `player_col*8`. The border is one 128x64 outline for style 0, the
pixels at every 4th position of the four edges for style 1, and nothing otherwise. -/
theorem update_display_composition :
    (∀ s : State, update_display s =
      [Out.ssd1306_fill false] ++ update_display.walls ++
        [Out.ssd1306_rect (to_uint8 (s.player_row * 8)) (to_uint8 (s.player_col * 8)) 8 8
          true true] ++
        update_display.border s.border_style ++ [Out.ssd1306_send_data]) ∧
    (∀ s : State, 0 ≤ s.player_row → s.player_row < 8 → 0 ≤ s.player_col →
      s.player_col < 16 →
      (to_uint8 (s.player_row * 8) : Int) = s.player_row * 8 ∧
        (to_uint8 (s.player_col * 8) : Int) = s.player_col * 8) ∧
    (∀ o ∈ update_display.walls, ∃ row : Nat, row < 8 ∧ ∃ col : Nat, col < 16 ∧
      maze_at row col = some 1 ∧ o = Out.ssd1306_fill_rect (row * 8) (col * 8) 8 8 true) ∧
    (∀ row col : Nat,
      update_display.walls.count (Out.ssd1306_fill_rect (row * 8) (col * 8) 8 8 true) =
        if maze_at row col = some 1 then 1 else 0) ∧
    (∀ top left width height : Nat, ∀ value : Bool,
      Out.ssd1306_fill_rect top left width height value ∈ update_display.walls →
      ∃ pixels, ssd1306_fill_rect top left width height value = some pixels ∧
        pixels.length = 64 ∧
        ∀ p ∈ pixels, ∃ x y : Nat, p = Out.ssd1306_pixel x y true ∧
          left ≤ x ∧ x < left + 8 ∧ top ≤ y ∧ y < top + 8 ∧ x < WIDTH ∧ y < HEIGHT) ∧
    update_display.border 0 = [Out.ssd1306_rect 0 0 128 64 true false] ∧
    (∀ o : Out, o ∈ update_display.border 1 ↔
      (∃ i : Nat, i < 128 ∧ i % 4 = 0 ∧
        (o = Out.ssd1306_pixel i 0 true ∨ o = Out.ssd1306_pixel i 63 true)) ∨
      (∃ i : Nat, i < 64 ∧ i % 4 = 0 ∧
        (o = Out.ssd1306_pixel 0 i true ∨ o = Out.ssd1306_pixel 127 i true))) ∧
    (∀ border_style : Int, border_style ≠ 0 → border_style ≠ 1 →
      update_display.border border_style = []) := by
  refine ⟨fun s => rfl, ?_, walls_members, walls_count, ?_, rfl, border_dashed_mem, ?_⟩
  · intro s h1 h2 h3 h4
    unfold to_uint8
    constructor <;> omega
  · intro top left width height value hmem
    obtain ⟨row, hr, col, hc, -, heq⟩ := walls_members _ hmem
    simp only [Out.ssd1306_fill_rect.injEq] at heq
    obtain ⟨rfl, rfl, rfl, rfl, rfl⟩ := heq
    refine ⟨_, ssd1306_fill_rect_eq _ _ _ _ _ (by omega) (by omega), ?_, ?_⟩
    · have hlen : ∀ l : List Nat,
          (l.flatMap fun j =>
            (List.range' (col * 8) 8).map fun i => Out.ssd1306_pixel i j true).length =
            l.length * 8 := by
        intro l
        induction l with
        | nil => rfl
        | cons a l ih =>
          rw [List.flatMap_cons, List.length_append, ih]
          simp only [List.length_map, List.length_range', List.length_cons]
          omega
      rw [hlen, List.length_range']
    · intro p hp
      simp only [List.mem_flatMap, List.mem_map, List.mem_range'_1] at hp
      obtain ⟨j, hj, i, hi, rfl⟩ := hp
      exact ⟨i, j, rfl, by omega, by omega, by omega, by omega, by simp only [WIDTH]; omega,
        by simp only [HEIGHT]; omega⟩
  · intro b h0 h1
    unfold update_display.border
    simp [h0, h1]

/-! ## C16: the joystick button -/

theorem irq_run_append (gpio : Nat) (a b : List Edge) :
    ∀ s : State, irq_run gpio s (a ++ b) =
      irq_run gpio s a ++ irq_run gpio (irq_state gpio s a) b := by
  induction a with
  | nil => intro s; rfl
  | cons e a ih =>
    intro s
    show (e.now, _) :: irq_run gpio _ (a ++ b) =
      (e.now, _) :: (irq_run gpio _ a ++ irq_run gpio (irq_state gpio _ a) b)
    rw [ih]

theorem joy_release (gpio_get_entry : Nat → Bool) (now : Nat) (gpio_get : Nat → Bool)
    (s : State) (h : gpio_get_entry JOYSTICK_PB = true) :
    gpio_global_callback JOYSTICK_PB gpio_get_entry now gpio_get s =
      ({ s with btnJoy_busy := false }, []) := by
  unfold gpio_global_callback joy_button_callback
  simp [h]

theorem joy_press_busy (gpio_get_entry : Nat → Bool) (now : Nat) (gpio_get : Nat → Bool)
    (s : State) (h : gpio_get_entry JOYSTICK_PB = false) (hb : s.btnJoy_busy = true) :
    gpio_global_callback JOYSTICK_PB gpio_get_entry now gpio_get s = (s, []) := by
  unfold gpio_global_callback joy_button_callback
  simp [h, hb]

theorem joy_press_idle (gpio_get_entry : Nat → Bool) (now : Nat) (gpio_get : Nat → Bool)
    (s : State) (h : gpio_get_entry JOYSTICK_PB = false) (hb : s.btnJoy_busy = false) :
    (gpio_global_callback JOYSTICK_PB gpio_get_entry now gpio_get s).1.btnJoy_busy = true := by
  unfold gpio_global_callback joy_button_callback debounce_button toggle_joy_action
  simp only [h, hb]
  simp only [PressVar.read, PressVar.write]
  split_ifs <;> simp_all

theorem joy_presses_busy (es : List Edge) :
    ∀ s : State, s.btnJoy_busy = true → (∀ e ∈ es, e.gpio_get_entry JOYSTICK_PB = false) →
      ((irq_run JOYSTICK_PB s es).map fun b => action_count b.2).sum = 0 := by
  induction es with
  | nil => intro s _ _; rfl
  | cons e es ih =>
    intro s hb hes
    have he := hes e (List.mem_cons_self _ _)
    simp only [irq_run, List.map_cons, List.sum_cons,
      joy_press_busy e.gpio_get_entry e.now e.gpio_get s he hb]
    rw [ih s hb fun e' he' => hes e' (List.mem_cons_of_mem _ he')]
    rfl

theorem joy_presses_idle (es : List Edge) (s : State) (hb : s.btnJoy_busy = false)
    (hes : ∀ e ∈ es, e.gpio_get_entry JOYSTICK_PB = false) :
    ((irq_run JOYSTICK_PB s es).map fun b => action_count b.2).sum ≤ 1 := by
  cases es with
  | nil => simp [irq_run]
  | cons e es =>
    have he := hes e (List.mem_cons_self _ _)
    have h1 := (irq_step_facts JOYSTICK_PB e.gpio_get_entry e.now e.gpio_get s).2.1
    have h2 := joy_presses_busy es _ (joy_press_idle e.gpio_get_entry e.now e.gpio_get s he hb)
      fun e' he' => hes e' (List.mem_cons_of_mem _ he')
    simp only [irq_run, List.map_cons, List.sum_cons, h2]
    omega

/-- C16. An edge event of the joystick button at which the pin reads released (high) makes
no call at all, so runs no action, and clears `btnJoy_busy`. In every sequence of
joystick-button edge events, the events that follow a release event up to the next release
event (events at which the pin reads pressed, however many and whatever their timestamps
and later pin readings) run at most one joystick action in total. -/
theorem joystick_once_per_down_period :
    (∀ (s : State) (e : Edge), e.gpio_get_entry JOYSTICK_PB = true →
      gpio_global_callback JOYSTICK_PB e.gpio_get_entry e.now e.gpio_get s =
        ({ s with btnJoy_busy := false }, [])) ∧
    (∀ (s : State) (before : List Edge) (release : Edge) (presses after : List Edge),
      release.gpio_get_entry JOYSTICK_PB = true →
      (∀ e ∈ presses, e.gpio_get_entry JOYSTICK_PB = false) →
      ((((irq_run JOYSTICK_PB s (before ++ release :: presses ++ after)).drop
          (before.length + 1)).take presses.length).map fun b => action_count b.2).sum
        ≤ 1) := by
  refine ⟨fun s e h => joy_release _ _ _ s h, ?_⟩
  intro s before release presses after hrel hpress
  have hsplit : before ++ release :: presses ++ after =
      (before ++ [release]) ++ (presses ++ after) := by simp
  rw [hsplit, irq_run_append, irq_run_append _ presses after]
  have hlen : (irq_run JOYSTICK_PB s (before ++ [release])).length = before.length + 1 := by
    rw [irq_run_length]; simp
  rw [← hlen, List.drop_left]
  have hlen2 : (irq_run JOYSTICK_PB (irq_state JOYSTICK_PB s (before ++ [release]))
      presses).length = presses.length := irq_run_length _ _ _
  rw [← hlen2, List.take_left]
  refine joy_presses_idle presses _ ?_ hpress
  have hstate : ∀ (l : List Edge) (u : State),
      (irq_state JOYSTICK_PB u (l ++ [release])).btnJoy_busy = false := by
    intro l
    induction l with
    | nil =>
      intro u
      show (gpio_global_callback JOYSTICK_PB release.gpio_get_entry release.now
        release.gpio_get u).1.btnJoy_busy = false
      rw [joy_release _ _ _ u hrel]
    | cons e l ih =>
      intro u
      exact ih _
  exact hstate before s

/-! ## C17, C18: the busy flags and the independence of the buttons -/

theorem gpio_global_callback_dispatch (gpio_get_entry : Nat → Bool) (now : Nat)
    (gpio_get : Nat → Bool) (s : State) :
    gpio_global_callback JOYSTICK_PB gpio_get_entry now gpio_get s =
        joy_button_callback JOYSTICK_PB gpio_get_entry now gpio_get s ∧
      gpio_global_callback BTN_A gpio_get_entry now gpio_get s =
        btn_a_callback now gpio_get s ∧
      gpio_global_callback BTN_B gpio_get_entry now gpio_get s =
        btn_b_callback now gpio_get s := by
  refine ⟨?_, ?_, ?_⟩ <;> simp [gpio_global_callback, JOYSTICK_PB, BTN_A, BTN_B]

/-- C17. An invocation of `btn_a_callback` (of `btn_b_callback`) that starts with that
button's busy flag set returns at once: no debounce check, no call, the whole state
unchanged. An invocation that starts with the flag clear runs `debounce_button` on the state
in which the flag is already set, and returns with the flag clear, whether or not the press
was confirmed. `gpio_global_callback` hands the events of pin 5 and pin 6 to these two
handlers. -/
theorem in_progress_guard (now : Nat) (gpio_get : Nat → Bool) (s : State) :
    (s.btnA_busy = true → btn_a_callback now gpio_get s = (s, [])) ∧
    (s.btnA_busy = false →
      btn_a_callback now gpio_get s =
          ({ (debounce_button BTN_A .last_press_btnA toggle_pwm_action now gpio_get
                { s with btnA_busy := true }).1 with btnA_busy := false },
            Out.printf "BTN_A IRQ acionado\n" [] ::
              (debounce_button BTN_A .last_press_btnA toggle_pwm_action now gpio_get
                { s with btnA_busy := true }).2) ∧
        (btn_a_callback now gpio_get s).1.btnA_busy = false) ∧
    (s.btnB_busy = true → btn_b_callback now gpio_get s = (s, [])) ∧
    (s.btnB_busy = false →
      btn_b_callback now gpio_get s =
          ({ (debounce_button BTN_B .last_press_btnB reset_game now gpio_get
                { s with btnB_busy := true }).1 with btnB_busy := false },
            Out.printf "BTN_B IRQ acionado - Reset\n" [] ::
              (debounce_button BTN_B .last_press_btnB reset_game now gpio_get
                { s with btnB_busy := true }).2) ∧
        (btn_b_callback now gpio_get s).1.btnB_busy = false) ∧
    (∀ gpio_get_entry : Nat → Bool,
      gpio_global_callback 5 gpio_get_entry now gpio_get s = btn_a_callback now gpio_get s ∧
        gpio_global_callback 6 gpio_get_entry now gpio_get s =
          btn_b_callback now gpio_get s) := by
  refine ⟨fun h => ?_, fun h => ?_, fun h => ?_, fun h => ?_, fun _ => ⟨?_, ?_⟩⟩
  · unfold btn_a_callback
    simp [h]
  · unfold btn_a_callback
    simp [h]
  · unfold btn_b_callback
    simp [h]
  · unfold btn_b_callback
    simp [h]
  · simp [gpio_global_callback, JOYSTICK_PB, BTN_A]
  · simp [gpio_global_callback, JOYSTICK_PB, BTN_A, BTN_B]

/-- C18. For every state and every edge event handed to `gpio_global_callback`: an event of
the joystick button leaves the timestamps and busy flags of buttons A and B unchanged, an
event of button A those of the joystick button and of button B, an event of button B those
of the joystick button and of button A; an event of any other pin changes nothing and makes
no call. -/
theorem button_independence (gpio : Nat) (gpio_get_entry : Nat → Bool) (now : Nat)
    (gpio_get : Nat → Bool) (s : State) :
    (gpio = JOYSTICK_PB →
      (gpio_global_callback gpio gpio_get_entry now gpio_get s).1.last_press_btnA =
          s.last_press_btnA ∧
        (gpio_global_callback gpio gpio_get_entry now gpio_get s).1.btnA_busy = s.btnA_busy ∧
        (gpio_global_callback gpio gpio_get_entry now gpio_get s).1.last_press_btnB =
          s.last_press_btnB ∧
        (gpio_global_callback gpio gpio_get_entry now gpio_get s).1.btnB_busy = s.btnB_busy) ∧
    (gpio = BTN_A →
      (gpio_global_callback gpio gpio_get_entry now gpio_get s).1.last_press_joy =
          s.last_press_joy ∧
        (gpio_global_callback gpio gpio_get_entry now gpio_get s).1.btnJoy_busy =
          s.btnJoy_busy ∧
        (gpio_global_callback gpio gpio_get_entry now gpio_get s).1.last_press_btnB =
          s.last_press_btnB ∧
        (gpio_global_callback gpio gpio_get_entry now gpio_get s).1.btnB_busy = s.btnB_busy) ∧
    (gpio = BTN_B →
      (gpio_global_callback gpio gpio_get_entry now gpio_get s).1.last_press_joy =
          s.last_press_joy ∧
        (gpio_global_callback gpio gpio_get_entry now gpio_get s).1.btnJoy_busy =
          s.btnJoy_busy ∧
        (gpio_global_callback gpio gpio_get_entry now gpio_get s).1.last_press_btnA =
          s.last_press_btnA ∧
        (gpio_global_callback gpio gpio_get_entry now gpio_get s).1.btnA_busy = s.btnA_busy) ∧
    (gpio ≠ JOYSTICK_PB → gpio ≠ BTN_A → gpio ≠ BTN_B →
      gpio_global_callback gpio gpio_get_entry now gpio_get s = (s, [])) := by
  refine ⟨fun h => ?_, fun h => ?_, fun h => ?_, fun h1 h2 h3 => ?_⟩
  · subst h
    rw [(gpio_global_callback_dispatch gpio_get_entry now gpio_get s).1]
    unfold joy_button_callback debounce_button toggle_joy_action
    simp only [PressVar.read, PressVar.write]
    split_ifs <;> simp
  · subst h
    rw [(gpio_global_callback_dispatch gpio_get_entry now gpio_get s).2.1]
    unfold btn_a_callback debounce_button toggle_pwm_action
    simp only [PressVar.read, PressVar.write]
    split_ifs <;> simp
  · subst h
    rw [(gpio_global_callback_dispatch gpio_get_entry now gpio_get s).2.2]
    unfold btn_b_callback debounce_button reset_game
    simp only [PressVar.read, PressVar.write]
    split_ifs <;> simp
  · unfold gpio_global_callback
    simp [h1, h2, h3]

/-! ## C19, C20: reaching the goal -/

theorem solution_path_run :
    main_loop_run initial_state solution_path =
      some { initial_state with player_col := 14, player_row := 6, goal_reached := true,
                                level_blue := 4093 } := by
  decide

/-- C19. The built-in maze is solvable: there is a finite list of sample pairs, each sample
in [0, 4095], such that running one main-loop iteration per pair from the initial state
(player on col 1, row 1, not completed) ends with the player on the goal cell
(col 14, row 6) and `goal_reached` set. -/
theorem maze_is_solvable :
    (initial_state.player_col = 1 ∧ initial_state.player_row = 1 ∧
      initial_state.goal_reached = false) ∧
    ∃ samples : List (Nat × Nat), (∀ p ∈ samples, p.1 ≤ 4095 ∧ p.2 ≤ 4095) ∧
      ∃ t, main_loop_run initial_state samples = some t ∧
        t.player_col = GOAL_COL ∧ t.player_row = GOAL_ROW ∧ t.player_col = 14 ∧
        t.player_row = 6 ∧ t.goal_reached = true :=
  ⟨⟨rfl, rfl, rfl⟩, solution_path, by decide, _, solution_path_run, rfl, rfl, rfl, rfl, rfl⟩

end ProjetoFInal
